import Mathlib

/-!
Verification of the jira-mcp repository: a shallow embedding of the two MCP
adapter servers (JIRA in `src/server.py` + `src/jira_client.py`, Bitbucket in
`bitbucket-mcp/src/server.py`) and proofs about the tool-call dispatch layer,
the JIRA document-to-text extractor, and the JIRA client's request builders.

Python `dict[str, Any]` values are embedded as ordered association lists
(`List (String × Json)`), matching Python's insertion-ordered dicts with
unique keys.  Python `None` is `Json.null` at the dispatch layer and
`Option.none` for typed optional client parameters.  JSON numbers are
embedded as `Int` (no arithmetic is ever performed on them by the code under
study, they are only passed through).  Fallible code returns `Option`/`Except`.
-/

/-- JSON values as the Python code manipulates them: `obj` keeps fields in
insertion order, as Python dicts do. -/
inductive Json where
  | null
  | bool (b : Bool)
  | num (n : Int)
  | str (s : String)
  | arr (items : List Json)
  | obj (fields : List (String × Json))
deriving Repr

/-- Dict key lookup: first binding of `k` (Python dicts have unique keys). -/
def jlookup (kvs : List (String × Json)) (k : String) : Option Json :=
  match kvs with
  | [] => none
  | (k', v) :: rest => if k' = k then some v else jlookup rest k

/-- `d[k] = v` on a Python dict: replace the binding of `k` in place if
present, otherwise append it at the end (Python insertion order). -/
def set_key (kvs : List (String × Json)) (k : String) (v : Json) :
    List (String × Json) :=
  match kvs with
  | [] => [(k, v)]
  | (k', v') :: rest => if k' = k then (k, v) :: rest else (k', v') :: set_key rest k v

/-- Python truthiness of a JSON value (`if x:`). -/
def json_truthy : Json → Bool
  | .null => false
  | .bool b => b
  | .num n => n != 0
  | .str s => !s.isEmpty
  | .arr xs => !xs.isEmpty
  | .obj kvs => !kvs.isEmpty

/-- Python truthiness of an `Optional[str]` (`None` and `""` are falsy). -/
def opt_str_truthy : Option String → Bool
  | none => false
  | some s => !s.isEmpty

/-- Python truthiness of an `Optional[list[str]]` (`None` and `[]` are falsy). -/
def opt_list_truthy : Option (List String) → Bool
  | none => false
  | some l => !l.isEmpty

-- ==================== Document-to-Text Extractor ====================
-- `JiraClient._extract_text_from_doc` (src/jira_client.py lines 26-50):
-- the inner `extract` visits a node; on a dict whose `type` is `'text'` it
-- appends `item.get('text', '')` to `text_parts`, then recurses into
-- `item['content']` when that key is present; on a list it recurses into
-- each element in order; the result is `' '.join(text_parts)`.

/-- The contribution of a dict node itself: `item.get('text', '')` when
`item.get('type') == 'text'`, nothing otherwise. -/
def text_part (kvs : List (String × Json)) : List Json :=
  match jlookup kvs "type" with
  | some (.str t) => if t = "text" then [(jlookup kvs "text").getD (.str "")] else []
  | _ => []

mutual

/-- The list `text_parts` accumulated by `extract` on one node, in
visitation order (a node's own text precedes its children's); `none` when
the visit raises a `TypeError` iterating a non-iterable `content` value. -/
def extract_parts : Json → Option (List Json)
  | .obj kvs => (content_parts kvs).map (fun cp => text_part kvs ++ cp)
  | .arr xs => extract_parts_list xs
  | _ => some []

/-- Recursion into `item['content']` when the key is present: the binding
scan mirrors `'content' in item` followed by `item['content']` (first and
only binding of the key).  `for sub_item in item['content']` iterates a
list's elements; it iterates a string's characters and a dict's keys, each
a string on which the inner `extract` contributes nothing; and it raises
`TypeError` (embedded as `none`) on a number, boolean or `None`, which are
not iterable. -/
def content_parts : List (String × Json) → Option (List Json)
  | [] => some []
  | (k, v) :: rest =>
    if k = "content" then
      match v with
      | .arr xs => extract_parts_list xs
      | .str _ => some []
      | .obj _ => some []
      | _ => none
    else content_parts rest

/-- `extract` over the elements of a list, left to right; fails as soon as
any element's visit raises. -/
def extract_parts_list : List Json → Option (List Json)
  | [] => some []
  | x :: xs =>
    match extract_parts x, extract_parts_list xs with
    | some a, some b => some (a ++ b)
    | _, _ => none

end

/-- `' '.join` demands every accumulated part be a string; a non-string part
makes the Python call raise `TypeError`, embedded as `none`. -/
def collect_strings : List Json → Option (List String)
  | [] => some []
  | .str s :: xs => (collect_strings xs).map (s :: ·)
  | _ :: _ => none

/-- `JiraClient._extract_text_from_doc`: the flattened text, or `none` when
the traversal or the `' '.join` raises a `TypeError` (non-iterable
`content`, or a non-string accumulated part). -/
def extract_text_from_doc (j : Json) : Option String :=
  (extract_parts j).bind fun ps => (collect_strings ps).map (String.intercalate " ")

/-- The single-paragraph Atlassian-document wrapping used by `create_issue`,
`update_issue` and `add_comment` for every free-text value
(src/jira_client.py lines 199-209, 259-269, 283-306, 394-405). -/
def doc_wrap (s : String) : Json :=
  .obj [("type", .str "doc"), ("version", .num 1),
        ("content", .arr [.obj [("type", .str "paragraph"),
          ("content", .arr [.obj [("type", .str "text"), ("text", .str s)]])]])]

-- ==================== Spec-side description of the extractor ====================
-- For the characterization claim about the extractor, a second definition
-- written from the spec's words: collect the `text` string of every node
-- whose type tag is "text", depth-first and left-to-right; every other node
-- contributes nothing of its own.

mutual

/-- Spec-side collector: the `text` values of the `"text"`-typed nodes, in
depth-first left-to-right visitation order. -/
def spec_texts : Json → List String
  | .obj kvs =>
    (match jlookup kvs "type" with
     | some (.str t) =>
       if t = "text" then
         match jlookup kvs "text" with
         | some (.str s) => [s]
         | _ => []
       else []
     | _ => []) ++ spec_content_texts kvs
  | .arr xs => spec_texts_list xs
  | _ => []

/-- Spec-side collector under a node's `content` entry. -/
def spec_content_texts : List (String × Json) → List String
  | [] => []
  | (k, v) :: rest =>
    if k = "content" then
      match v with
      | .arr xs => spec_texts_list xs
      | _ => []
    else spec_content_texts rest

/-- Spec-side collector over a sequence of nodes. -/
def spec_texts_list : List Json → List String
  | [] => []
  | x :: xs => spec_texts x ++ spec_texts_list xs

end

mutual

/-- Well-formed document value: every `"text"`-typed node carries a string
`text` entry and every `content` entry is a list of well-formed nodes. -/
def doc_wf : Json → Bool
  | .obj kvs =>
    (match jlookup kvs "type" with
     | some (.str t) =>
       if t = "text" then
         match jlookup kvs "text" with
         | some (.str _) => true
         | _ => false
       else true
     | _ => true) && doc_wf_content kvs
  | .arr xs => doc_wf_list xs
  | _ => true

/-- Well-formedness of a node's `content` entry, if any. -/
def doc_wf_content : List (String × Json) → Bool
  | [] => true
  | (k, v) :: rest =>
    if k = "content" then
      match v with
      | .arr xs => doc_wf_list xs
      | _ => false
    else doc_wf_content rest

/-- Well-formedness of a sequence of nodes. -/
def doc_wf_list : List Json → Bool
  | [] => true
  | x :: xs => doc_wf x && doc_wf_list xs

end

-- ==================== Helper lemmas ====================

theorem intercalate_singleton (s : String) : String.intercalate " " [s] = s := rfl

theorem collect_strings_append (xs ys : List Json) :
    collect_strings (xs ++ ys) =
      (collect_strings xs).bind fun l => (collect_strings ys).map (l ++ ·) := by
  induction xs with
  | nil => cases h : collect_strings ys <;> simp [collect_strings, h]
  | cons x xs ih =>
    cases x with
    | str s =>
      simp only [List.cons_append, collect_strings, ih]
      cases h1 : collect_strings xs <;> cases h2 : collect_strings ys <;> simp [ih, h1, h2]
    | null => simp [collect_strings]
    | bool b => simp [collect_strings]
    | num n => simp [collect_strings]
    | arr items => simp [collect_strings]
    | obj fields => simp [collect_strings]

mutual

theorem collect_extract_parts :
    ∀ j : Json, doc_wf j = true →
      (extract_parts j).bind collect_strings = some (spec_texts j)
  | .null, _ => rfl
  | .bool _, _ => rfl
  | .num _, _ => rfl
  | .str _, _ => rfl
  | .arr xs, h => by
    simpa [extract_parts, spec_texts] using
      collect_extract_parts_list xs (by simpa [doc_wf] using h)
  | .obj kvs, h => by
    have h' := h
    simp [doc_wf] at h'
    have hc := collect_content_parts kvs h'.2
    cases hcp : content_parts kvs with
    | none => rw [hcp] at hc; simp at hc
    | some cp =>
    rw [hcp] at hc
    have hc' : collect_strings cp = some (spec_content_texts kvs) := hc
    rw [extract_parts, hcp, spec_texts]
    show collect_strings (text_part kvs ++ cp) = _
    rw [collect_strings_append, hc']
    match htp : jlookup kvs "type" with
    | none => simp [text_part, htp, collect_strings]
    | some (.str t) =>
      by_cases ht : t = "text"
      · subst ht
        simp [htp] at h'
        match htx : jlookup kvs "text" with
        | some (.str s) => simp [text_part, htp, htx, collect_strings]
        | none => simp [htx] at h'
        | some .null | some (.bool _) | some (.num _)
        | some (.arr _) | some (.obj _) => simp [htx] at h'
      · simp [text_part, htp, ht, collect_strings]
    | some .null | some (.bool _) | some (.num _) | some (.arr _) | some (.obj _) =>
      simp [text_part, htp, collect_strings]
termination_by j _ => sizeOf j

theorem collect_content_parts :
    ∀ kvs : List (String × Json), doc_wf_content kvs = true →
      (content_parts kvs).bind collect_strings = some (spec_content_texts kvs)
  | [], _ => rfl
  | (k, .arr xs) :: rest, h => by
    by_cases hk : k = "content"
    · subst hk
      simp [doc_wf_content] at h
      simpa [content_parts, spec_content_texts] using collect_extract_parts_list xs h
    · have h' : doc_wf_content rest = true := by simpa [doc_wf_content, hk] using h
      simpa [content_parts, spec_content_texts, hk] using collect_content_parts rest h'
  | (k, .null) :: rest, h => by
    by_cases hk : k = "content"
    · subst hk; simp [doc_wf_content] at h
    · have h' : doc_wf_content rest = true := by simpa [doc_wf_content, hk] using h
      simpa [content_parts, spec_content_texts, hk] using collect_content_parts rest h'
  | (k, .bool b) :: rest, h => by
    by_cases hk : k = "content"
    · subst hk; simp [doc_wf_content] at h
    · have h' : doc_wf_content rest = true := by simpa [doc_wf_content, hk] using h
      simpa [content_parts, spec_content_texts, hk] using collect_content_parts rest h'
  | (k, .num n) :: rest, h => by
    by_cases hk : k = "content"
    · subst hk; simp [doc_wf_content] at h
    · have h' : doc_wf_content rest = true := by simpa [doc_wf_content, hk] using h
      simpa [content_parts, spec_content_texts, hk] using collect_content_parts rest h'
  | (k, .str s) :: rest, h => by
    by_cases hk : k = "content"
    · subst hk; simp [doc_wf_content] at h
    · have h' : doc_wf_content rest = true := by simpa [doc_wf_content, hk] using h
      simpa [content_parts, spec_content_texts, hk] using collect_content_parts rest h'
  | (k, .obj kvs') :: rest, h => by
    by_cases hk : k = "content"
    · subst hk; simp [doc_wf_content] at h
    · have h' : doc_wf_content rest = true := by simpa [doc_wf_content, hk] using h
      simpa [content_parts, spec_content_texts, hk] using collect_content_parts rest h'
termination_by kvs _ => sizeOf kvs

theorem collect_extract_parts_list :
    ∀ xs : List Json, doc_wf_list xs = true →
      (extract_parts_list xs).bind collect_strings = some (spec_texts_list xs)
  | [], _ => rfl
  | x :: xs, h => by
    simp [doc_wf_list] at h
    have h1 := collect_extract_parts x h.1
    have h2 := collect_extract_parts_list xs h.2
    cases he1 : extract_parts x with
    | none => rw [he1] at h1; simp at h1
    | some a =>
    cases he2 : extract_parts_list xs with
    | none => rw [he2] at h2; simp at h2
    | some b =>
    rw [he1] at h1
    rw [he2] at h2
    have h1' : collect_strings a = some (spec_texts x) := h1
    have h2' : collect_strings b = some (spec_texts_list xs) := h2
    rw [extract_parts_list, he1, he2, spec_texts_list]
    show collect_strings (a ++ b) = _
    rw [collect_strings_append, h1', h2']
    rfl
termination_by xs _ => sizeOf xs

end

-- ==================== C5 / C6 theorems ====================

/-- C5: round-trip — the document-to-text extractor applied to the
single-paragraph wrapping of any string `s` (the wrapping used for
descriptions, comments and the acceptance-criteria / technical-requirements
custom fields) yields exactly `s`; in particular the wrapping of
`"hello world"` extracts to `"hello world"`. -/
theorem doc_wrap_roundtrip (s : String) : extract_text_from_doc (doc_wrap s) = some s := rfl

/-- C6: on every well-formed document node or node sequence, the extractor
accumulates exactly the `text` values of the `"text"`-typed nodes, visiting
depth-first left-to-right, and joins them with a single space; nodes of any
other type contribute nothing of their own.  In particular
`[{type:"text",text:"a"},{type:"emoji"},{type:"text",text:"b"}]` extracts to
`"a b"` (see the witness below). -/
theorem extractor_joins_text_nodes (j : Json) (h : doc_wf j = true) :
    extract_text_from_doc j = some (String.intercalate " " (spec_texts j)) := by
  have hc := collect_extract_parts j h
  cases hep : extract_parts j with
  | none => rw [hep] at hc; simp at hc
  | some ps =>
    rw [hep] at hc
    have hc' : collect_strings ps = some (spec_texts j) := hc
    rw [extract_text_from_doc, hep]
    show (collect_strings ps).map (String.intercalate " ") = _
    rw [hc']
    rfl

/-- Witness for C6: the spec's mixed-content example evaluates to `"a b"`. -/
theorem extractor_joins_text_nodes_witness :
    extract_text_from_doc (.arr [.obj [("type", .str "text"), ("text", .str "a")],
      .obj [("type", .str "emoji")],
      .obj [("type", .str "text"), ("text", .str "b")]]) = some "a b" := by
  rw [extractor_joins_text_nodes _ (by rfl)]
  rfl

-- ==================== JIRA client request builders ====================

/-- Python's `str.lower()` as used by `transition_issue` for the
case-insensitive name comparison, written over the character list so that
it evaluates on literals (it lower-cases each character, as
`String.toLower` does). -/
def str_lower (s : String) : String := ⟨s.data.map Char.toLower⟩

/-- One available transition as returned by
`GET /rest/api/3/issue/{key}/transitions` (an `id` and a `name`). -/
structure Transition where
  id : String
  name : String
deriving Repr, DecidableEq

/-- What `JiraClient.transition_issue` does after the optional lookup:
whether the transitions GET was performed, and the `id` put into the POSTed
body `{"transition": {"id": transition_id}}`. -/
structure TransitionOutcome where
  fetched : Bool
  posted_id : Option String
deriving Repr, DecidableEq

/-- `JiraClient.transition_issue` (src/jira_client.py lines 347-382).  The
available transitions stand for the parsed body of the transitions GET,
which is only consulted when `transition_name` is truthy and `transition_id`
is not.  The loop takes the first case-insensitive name match; if the id is
still falsy afterwards a `ValueError` is raised (embedded as `.error`) and
the POST is never performed. -/
def transition_issue (issue_key : String)
    (transition_id transition_name : Option String)
    (available : List Transition) : Except String TransitionOutcome :=
  if opt_str_truthy transition_name && !opt_str_truthy transition_id then
    let tn := transition_name.getD ""
    let tid : Option String :=
      match available.find? (fun t => str_lower t.name == str_lower tn) with
      | some t => some t.id
      | none => transition_id
    if opt_str_truthy tid then .ok ⟨true, tid⟩
    else .error ("Transition '" ++ tn ++ "' not found for issue " ++ issue_key)
  else .ok ⟨false, transition_id⟩

/-- `JiraClient.get_issue` post-processing (src/jira_client.py lines
148-167) applied to the parsed response body: when `fields.description`
exists and is truthy, attach the extracted text under
`fields.description_text`; `none` stands for the `TypeError` that
`' '.join` would raise on a malformed document. -/
def get_issue (body : Json) : Option Json :=
  match body with
  | .obj kvs =>
    match jlookup kvs "fields" with
    | some (.obj fkvs) =>
      match jlookup fkvs "description" with
      | some d =>
        if json_truthy d then
          (extract_text_from_doc d).map fun txt =>
            .obj (set_key kvs "fields" (.obj (set_key fkvs "description_text" (.str txt))))
        else some body
      | none => some body
    | _ => some body
  | _ => some body

/-- The `fields` dict built by `JiraClient.create_issue` (src/jira_client.py
lines 169-217): three unconditional entries, then each optional argument
appended only when truthy (`if description:` etc.). -/
def create_issue_fields (project_key summary issue_type : String)
    (description priority assignee_id : Option String)
    (labels : Option (List String)) : List (String × Json) :=
  [("project", .obj [("key", .str project_key)]),
   ("summary", .str summary),
   ("issuetype", .obj [("name", .str issue_type)])] ++
  (if opt_str_truthy description then [("description", doc_wrap (description.getD ""))] else []) ++
  (if opt_str_truthy priority then [("priority", .obj [("name", .str (priority.getD ""))])] else []) ++
  (if opt_str_truthy assignee_id then [("assignee", .obj [("id", .str (assignee_id.getD ""))])] else []) ++
  (if opt_list_truthy labels then [("labels", .arr ((labels.getD []).map .str))] else [])

set_option linter.unusedVariables false in
/-- The request built by `JiraClient.search_issues` (src/jira_client.py
lines 116-146): the POST URL and JSON body.  The `start_at` parameter is
accepted but never read (the `/search/jql` endpoint does not support
`startAt`), and `fields` is added only when truthy. -/
def search_issues_request (jira_url jql : String) (max_results start_at : Int)
    (fields : Option (List String)) : String × List (String × Json) :=
  (jira_url ++ "/rest/api/3/search/jql",
   [("jql", .str jql), ("maxResults", .num max_results)] ++
   (if opt_list_truthy fields then [("fields", .arr ((fields.getD []).map .str))] else []))

/-- The `if x is not None: fields[k] = f(x)` idiom: one dict entry exactly
when the optional argument is present (even if falsy). -/
def opt_field (o : Option α) (k : String) (f : α → Json) : List (String × Json) :=
  match o with
  | some x => [(k, f x)]
  | none => []

/-- The `fields` dict built by `JiraClient.update_issue` (src/jira_client.py
lines 225-308): `summary`, `description`, `priority` and `assignee` are
added only when truthy (`if summary:` …), whereas `labels` and the four
custom fields are added whenever the argument `is not None`. -/
def update_issue_fields (summary description priority assignee_id : Option String)
    (labels : Option (List String)) (story_points : Option Int)
    (sprint : Option (List String))
    (acceptance_criteria technical_requirements : Option String) :
    List (String × Json) :=
  (if opt_str_truthy summary then [("summary", .str (summary.getD ""))] else []) ++
  (if opt_str_truthy description then [("description", doc_wrap (description.getD ""))] else []) ++
  (if opt_str_truthy priority then [("priority", .obj [("name", .str (priority.getD ""))])] else []) ++
  (if opt_str_truthy assignee_id then [("assignee", .obj [("id", .str (assignee_id.getD ""))])] else []) ++
  opt_field labels "labels" (fun l => .arr (l.map .str)) ++
  opt_field story_points "customfield_10105" (fun n => .num n) ++
  opt_field sprint "customfield_10106" (fun l => .arr (l.map .str)) ++
  opt_field acceptance_criteria "customfield_10103" (fun s => doc_wrap s) ++
  opt_field technical_requirements "customfield_10104" (fun s => doc_wrap s)

/-- The JSON body `{"fields": ...}` PUT by `JiraClient.update_issue`. -/
def update_issue_body (summary description priority assignee_id : Option String)
    (labels : Option (List String)) (story_points : Option Int)
    (sprint : Option (List String))
    (acceptance_criteria technical_requirements : Option String) : Json :=
  .obj [("fields", .obj (update_issue_fields summary description priority assignee_id
    labels story_points sprint acceptance_criteria technical_requirements))]

-- ==================== set_key / jlookup lemmas ====================

theorem jlookup_set_key_self (kvs : List (String × Json)) (k : String) (v : Json) :
    jlookup (set_key kvs k v) k = some v := by
  induction kvs with
  | nil => simp [set_key, jlookup]
  | cons p rest ih =>
    obtain ⟨k', v'⟩ := p
    by_cases h : k' = k
    · simp [set_key, jlookup, h]
    · simp [set_key, jlookup, h, ih]

theorem jlookup_set_key_ne (kvs : List (String × Json)) (k k' : String) (v : Json)
    (h : k' ≠ k) : jlookup (set_key kvs k v) k' = jlookup kvs k' := by
  induction kvs with
  | nil => simp [set_key, jlookup, Ne.symm h]
  | cons p rest ih =>
    obtain ⟨k'', v''⟩ := p
    by_cases h2 : k'' = k
    · subst h2
      simp [set_key, jlookup, Ne.symm h, h]
    · simp [set_key, jlookup, h2, ih]

theorem set_key_append_of_absent (kvs : List (String × Json)) (k : String) (v : Json)
    (h : jlookup kvs k = none) : set_key kvs k v = kvs ++ [(k, v)] := by
  induction kvs with
  | nil => simp [set_key]
  | cons p rest ih =>
    obtain ⟨k', v'⟩ := p
    by_cases h2 : k' = k
    · simp [jlookup, h2] at h
    · simp [jlookup, h2] at h
      simp [set_key, h2, ih h]

theorem jlookup_append (xs ys : List (String × Json)) (k : String) :
    jlookup (xs ++ ys) k = (jlookup xs k).or (jlookup ys k) := by
  induction xs with
  | nil => simp [jlookup]
  | cons p rest ih =>
    obtain ⟨k', v'⟩ := p
    by_cases h : k' = k <;> simp [jlookup, h, ih]

theorem jlookup_opt_field_ne (o : Option α) (k k' : String) (f : α → Json)
    (h : k ≠ k') : jlookup (opt_field o k f) k' = none := by
  cases o <;> simp [opt_field, jlookup, h]

theorem jlookup_opt_field_self (x : α) (k : String) (f : α → Json) :
    jlookup (opt_field (some x) k f) k = some (f x) := by
  simp [opt_field, jlookup]

theorem jlookup_if_singleton_ne (c : Bool) (k' k : String) (v : Json) (h : k' ≠ k) :
    jlookup (if c then [(k', v)] else []) k = none := by
  cases c <;> simp [jlookup, h]

-- ==================== C4: transition by name ====================

theorem isEmpty_false_of_ne (n : String) (hn : n ≠ "") : n.isEmpty = false := by
  cases h : n.isEmpty
  · rfl
  · exact absurd ((String.isEmpty_iff n).1 h) hn

/-- C4: when `transition_issue` is called with a (nonempty) `transition_name`
and no `transition_id`, and every available transition has a nonempty id, it
fetches the available transitions and: if some transition's name matches the
requested name case-insensitively, it POSTs the id of the first such
transition; if none matches, it raises a `ValueError` naming the requested
name and the issue key and performs no transition POST (the `.error` result
short-circuits before the POST is built). -/
theorem transition_by_name (issue_key n : String) (available : List Transition)
    (hn : n ≠ "") (hids : ∀ t ∈ available, t.id ≠ "") :
    (∀ t, available.find? (fun t => str_lower t.name == str_lower n) = some t →
      transition_issue issue_key none (some n) available = .ok ⟨true, some t.id⟩) ∧
    (available.find? (fun t => str_lower t.name == str_lower n) = none →
      transition_issue issue_key none (some n) available =
        .error ("Transition '" ++ n ++ "' not found for issue " ++ issue_key)) := by
  constructor
  · intro t hfind
    have hid : t.id ≠ "" := hids t (List.mem_of_find?_eq_some hfind)
    simp [transition_issue, opt_str_truthy, hfind,
      isEmpty_false_of_ne n hn, isEmpty_false_of_ne t.id hid]
  · intro hfind
    simp [transition_issue, opt_str_truthy, hfind, isEmpty_false_of_ne n hn]

/-- Witness for C4, from the spec's example: `"Done"` among
`[{id:"31",name:"In Progress"},{id:"41",name:"Done"}]` resolves to id
`"41"`, and `"Unknown"` yields the domain error naming both the requested
name and the issue key. -/
theorem transition_by_name_witness :
    transition_issue "PROJ-1" none (some "Done")
        [⟨"31", "In Progress"⟩, ⟨"41", "Done"⟩] = .ok ⟨true, some "41"⟩ ∧
    transition_issue "PROJ-1" none (some "Unknown")
        [⟨"31", "In Progress"⟩, ⟨"41", "Done"⟩] =
      .error "Transition 'Unknown' not found for issue PROJ-1" :=
  ⟨(transition_by_name "PROJ-1" "Done" [⟨"31", "In Progress"⟩, ⟨"41", "Done"⟩]
      (by decide) (by decide)).1 ⟨"41", "Done"⟩ (by rfl),
   (transition_by_name "PROJ-1" "Unknown" [⟨"31", "In Progress"⟩, ⟨"41", "Done"⟩]
      (by decide) (by decide)).2 (by rfl)⟩

-- ==================== C7: get_issue description_text ====================

/-- C7 (amended): on a `get_issue` response body whose `fields.description`
is present *and truthy*, the result is the body with exactly one change:
`description_text` set under `fields` to the extracted text.  The original
`description`, every other entry of `fields`, and every other top-level
entry are unchanged, and when `description_text` was not already present
the new entry is a pure addition at the end of `fields`.  When
`fields.description` is absent the body is returned verbatim. -/
theorem get_issue_attaches_description_text :
    (∀ (kvs fkvs : List (String × Json)) (d : Json) (txt : String),
      jlookup kvs "fields" = some (.obj fkvs) →
      jlookup fkvs "description" = some d →
      json_truthy d = true →
      extract_text_from_doc d = some txt →
      get_issue (.obj kvs) =
        some (.obj (set_key kvs "fields"
          (.obj (set_key fkvs "description_text" (.str txt))))) ∧
      jlookup (set_key fkvs "description_text" (.str txt)) "description_text" =
        some (.str txt) ∧
      (∀ k, k ≠ "description_text" →
        jlookup (set_key fkvs "description_text" (.str txt)) k = jlookup fkvs k) ∧
      (∀ k, k ≠ "fields" →
        jlookup (set_key kvs "fields"
          (.obj (set_key fkvs "description_text" (.str txt)))) k = jlookup kvs k) ∧
      (jlookup fkvs "description_text" = none →
        set_key fkvs "description_text" (.str txt) =
          fkvs ++ [("description_text", .str txt)])) ∧
    (∀ (kvs fkvs : List (String × Json)),
      jlookup kvs "fields" = some (.obj fkvs) →
      jlookup fkvs "description" = none →
      get_issue (.obj kvs) = some (.obj kvs)) := by
  constructor
  · intro kvs fkvs d txt h1 h2 h3 h4
    refine ⟨by simp [get_issue, h1, h2, h3, h4],
      jlookup_set_key_self fkvs "description_text" (.str txt),
      fun k hk => jlookup_set_key_ne fkvs "description_text" k (.str txt) hk,
      fun k hk => jlookup_set_key_ne kvs "fields" k _ hk,
      fun habs => set_key_append_of_absent fkvs "description_text" (.str txt) habs⟩
  · intro kvs fkvs h1 h2
    simp [get_issue, h1, h2]

/-- Witness for C7: a concrete body with a truthy document description gets
`description_text` appended inside `fields` and nothing else changes. -/
theorem get_issue_attaches_description_text_witness :
    get_issue (.obj [("key", .str "PROJ-1"),
        ("fields", .obj [("summary", .str "S"), ("description", doc_wrap "hello")])]) =
      some (.obj [("key", .str "PROJ-1"),
        ("fields", .obj [("summary", .str "S"), ("description", doc_wrap "hello"),
          ("description_text", .str "hello")])]) :=
  (get_issue_attaches_description_text.1
    [("key", .str "PROJ-1"),
     ("fields", .obj [("summary", .str "S"), ("description", doc_wrap "hello")])]
    [("summary", .str "S"), ("description", doc_wrap "hello")]
    (doc_wrap "hello") "hello" rfl rfl rfl rfl).1

/-- Counterexample to C7 as stated: a body whose `fields.description` entry
is present but `null` (a perfectly ordinary JIRA response) is returned
verbatim — no `description_text` key is added, because the code tests the
entry for truthiness, not mere presence. -/
theorem get_issue_null_description_cex :
    (jlookup [("description", Json.null)] "description").isSome = true ∧
    get_issue (.obj [("fields", .obj [("description", Json.null)])]) =
      some (.obj [("fields", .obj [("description", Json.null)])]) ∧
    jlookup [("description", Json.null)] "description_text" = none :=
  ⟨rfl, rfl, rfl⟩

-- ==================== C8: create_issue optional omission ====================

/-- C8: the `fields` dict built by `create_issue` always carries `project`,
`summary` and `issuetype`, and for each optional argument that is not
supplied the corresponding key (`description`, `priority`, `assignee`,
`labels`) is absent from the dict entirely, not set to null. -/
theorem create_issue_optional_omission
    (pk sm it : String) (d p a : Option String) (l : Option (List String)) :
    jlookup (create_issue_fields pk sm it d p a l) "project" =
      some (.obj [("key", .str pk)]) ∧
    jlookup (create_issue_fields pk sm it d p a l) "summary" = some (.str sm) ∧
    jlookup (create_issue_fields pk sm it d p a l) "issuetype" =
      some (.obj [("name", .str it)]) ∧
    (d = none → jlookup (create_issue_fields pk sm it d p a l) "description" = none) ∧
    (p = none → jlookup (create_issue_fields pk sm it d p a l) "priority" = none) ∧
    (a = none → jlookup (create_issue_fields pk sm it d p a l) "assignee" = none) ∧
    (l = none → jlookup (create_issue_fields pk sm it d p a l) "labels" = none) := by
  refine ⟨rfl, rfl, rfl, ?_, ?_, ?_, ?_⟩ <;> intro h <;> subst h <;>
    simp [create_issue_fields, jlookup_append, jlookup_if_singleton_ne,
      jlookup, opt_str_truthy, opt_list_truthy]

/-- Witness for C8: with no optional arguments at all, the three mandatory
keys are present and `description` is absent. -/
theorem create_issue_optional_omission_witness :
    jlookup (create_issue_fields "PROJ" "Sum" "Task" none none none none) "project" =
      some (.obj [("key", .str "PROJ")]) ∧
    jlookup (create_issue_fields "PROJ" "Sum" "Task" none none none none) "description" =
      none ∧
    jlookup (create_issue_fields "PROJ" "Sum" "Task" none none none none) "labels" =
      none :=
  ⟨(create_issue_optional_omission "PROJ" "Sum" "Task" none none none none).1,
   (create_issue_optional_omission "PROJ" "Sum" "Task" none none none none).2.2.2.1 rfl,
   (create_issue_optional_omission "PROJ" "Sum" "Task" none none none none).2.2.2.2.2.2 rfl⟩

-- ==================== C9: search_issues ignores start_at ====================

/-- C9: two `search_issues` calls differing only in `start_at` build the
identical HTTP request (same URL, same JSON body), whose body carries only
`jql`, `maxResults` and — when a truthy `fields` list is supplied —
`fields`; `start_at` is accepted but never used, so with the same remote
response the returned result is identical. -/
theorem search_issues_start_at_unused (url jql : String) (mr s1 s2 : Int)
    (fields : Option (List String)) :
    search_issues_request url jql mr s1 fields = search_issues_request url jql mr s2 fields ∧
    (search_issues_request url jql mr s1 fields).1 = url ++ "/rest/api/3/search/jql" ∧
    (search_issues_request url jql mr s1 fields).2.map Prod.fst =
      ["jql", "maxResults"] ++ (if opt_list_truthy fields then ["fields"] else []) := by
  refine ⟨rfl, rfl, ?_⟩
  cases h : opt_list_truthy fields <;> simp [search_issues_request, h]

-- ==================== C10: update_issue's two filtering rules ====================

/-- C10: `update_issue` filters its optional arguments by two different
rules.  `summary`, `description` and `priority` enter the `fields` dict only
when truthy — supplying the empty string behaves exactly like not supplying
the argument — whereas `labels`, `story_points`, `sprint`,
`acceptance_criteria` and `technical_requirements` enter whenever they are
not `None`, so `labels=[]` sends `"labels": []`, `story_points=0` sends the
custom field with `0`, `acceptance_criteria=""` sends a document wrapping
the empty string, and with no optional arguments the PUT body is
`{"fields": {}}`. -/
theorem update_issue_two_filter_rules
    (sm d p a : Option String) (l : Option (List String)) (sp : Option Int)
    (spr : Option (List String)) (ac tr : Option String) :
    update_issue_fields (some "") d p a l sp spr ac tr =
      update_issue_fields none d p a l sp spr ac tr ∧
    update_issue_fields sm (some "") p a l sp spr ac tr =
      update_issue_fields sm none p a l sp spr ac tr ∧
    update_issue_fields sm d (some "") a l sp spr ac tr =
      update_issue_fields sm d none a l sp spr ac tr ∧
    (∀ s, sm = some s → s ≠ "" →
      jlookup (update_issue_fields sm d p a l sp spr ac tr) "summary" =
        some (.str s)) ∧
    (∀ s, d = some s → s ≠ "" →
      jlookup (update_issue_fields sm d p a l sp spr ac tr) "description" =
        some (doc_wrap s)) ∧
    (∀ s, p = some s → s ≠ "" →
      jlookup (update_issue_fields sm d p a l sp spr ac tr) "priority" =
        some (.obj [("name", .str s)])) ∧
    (∀ ls, l = some ls →
      jlookup (update_issue_fields sm d p a l sp spr ac tr) "labels" =
        some (.arr (ls.map .str))) ∧
    (∀ n, sp = some n →
      jlookup (update_issue_fields sm d p a l sp spr ac tr) "customfield_10105" =
        some (.num n)) ∧
    (∀ ls, spr = some ls →
      jlookup (update_issue_fields sm d p a l sp spr ac tr) "customfield_10106" =
        some (.arr (ls.map .str))) ∧
    (∀ s, ac = some s →
      jlookup (update_issue_fields sm d p a l sp spr ac tr) "customfield_10103" =
        some (doc_wrap s)) ∧
    (∀ s, tr = some s →
      jlookup (update_issue_fields sm d p a l sp spr ac tr) "customfield_10104" =
        some (doc_wrap s)) ∧
    update_issue_body none none none none none none none none none =
      .obj [("fields", .obj [])] := by
  refine ⟨rfl, rfl, rfl, ?_, ?_, ?_, ?_, ?_, ?_, ?_, ?_, rfl⟩ <;>
    intro x hx <;> subst hx
  · intro hne
    simp [update_issue_fields, jlookup_append, jlookup_if_singleton_ne,
      jlookup_opt_field_ne, jlookup, opt_str_truthy, isEmpty_false_of_ne x hne]
  · intro hne
    simp [update_issue_fields, jlookup_append, jlookup_if_singleton_ne,
      jlookup_opt_field_ne, jlookup, opt_str_truthy, isEmpty_false_of_ne x hne]
  · intro hne
    simp [update_issue_fields, jlookup_append, jlookup_if_singleton_ne,
      jlookup_opt_field_ne, jlookup, opt_str_truthy, isEmpty_false_of_ne x hne]
  · simp [update_issue_fields, jlookup_append, jlookup_if_singleton_ne,
      jlookup_opt_field_ne, jlookup_opt_field_self]
  · simp [update_issue_fields, jlookup_append, jlookup_if_singleton_ne,
      jlookup_opt_field_ne, jlookup_opt_field_self]
  · simp [update_issue_fields, jlookup_append, jlookup_if_singleton_ne,
      jlookup_opt_field_ne, jlookup_opt_field_self]
  · simp [update_issue_fields, jlookup_append, jlookup_if_singleton_ne,
      jlookup_opt_field_ne, jlookup_opt_field_self]
  · simp [update_issue_fields, jlookup_append, jlookup_if_singleton_ne,
      jlookup_opt_field_ne, jlookup_opt_field_self]

/-- Witness for C10: `labels=[]` sends the empty list, `story_points=0`
sends `0`, `acceptance_criteria=""` sends a document wrapping `""`, a
nonempty summary is sent, and the all-`None` body is `{"fields": {}}`. -/
theorem update_issue_two_filter_rules_witness :
    jlookup (update_issue_fields none none none none (some []) (some 0) none
      (some "") none) "labels" = some (.arr []) ∧
    jlookup (update_issue_fields none none none none (some []) (some 0) none
      (some "") none) "customfield_10105" = some (.num 0) ∧
    jlookup (update_issue_fields none none none none (some []) (some 0) none
      (some "") none) "customfield_10103" = some (doc_wrap "") ∧
    jlookup (update_issue_fields (some "T") none none none none none none
      none none) "summary" = some (.str "T") ∧
    update_issue_body none none none none none none none none none =
      .obj [("fields", .obj [])] :=
  ⟨(update_issue_two_filter_rules none none none none (some []) (some 0) none
      (some "") none).2.2.2.2.2.2.1 [] rfl,
   (update_issue_two_filter_rules none none none none (some []) (some 0) none
      (some "") none).2.2.2.2.2.2.2.1 0 rfl,
   (update_issue_two_filter_rules none none none none (some []) (some 0) none
      (some "") none).2.2.2.2.2.2.2.2.2.1 "" rfl,
   (update_issue_two_filter_rules (some "T") none none none none none none
      none none).2.2.2.1 "T" rfl (by decide),
   (update_issue_two_filter_rules none none none none none none none
      none none).2.2.2.2.2.2.2.2.2.2.2⟩

-- ==================== Dispatch layer ====================
-- Both servers define `call_tool(name, arguments)` with the same shape
-- (src/server.py lines 334-448, bitbucket-mcp/src/server.py lines 446-603):
-- a single `try:` wrapping an if/elif chain on `name` — each branch extracts
-- arguments (required ones by direct indexing, optional ones via
-- `arguments.get`) and awaits exactly one client method — with an `else:`
-- returning `Unknown tool: {name}`, a `json.dumps` of the result, and
-- `except Exception as e: return [TextContent(type="text", text=f"Error: {str(e)}")]`.

/-- One `mcp.types.TextContent(type="text", text=...)` payload. -/
structure TextContent where
  typ : String
  text : String
deriving Repr, DecidableEq

/-- The exceptions that can arise inside a `call_tool` body: a `KeyError`
from `arguments[k]` with a missing key, or whatever the client call raised.
`message` is Python's `str(e)`: `str(KeyError('k'))` is `"'k'"`. -/
inductive Exn where
  | key_error (k : String)
  | client_error (m : String)
deriving Repr, DecidableEq

def Exn.message : Exn → String
  | .key_error k => "'" ++ k ++ "'"
  | .client_error m => m

/-- `arguments[k]`: direct keyed extraction, raising `KeyError(k)` when the
key is absent. -/
def arg_req (args : List (String × Json)) (k : String) : Except Exn Json :=
  match jlookup args k with
  | some v => .ok v
  | none => .error (.key_error k)

/-- `arguments.get(k)`: Python `None` (embedded as `Json.null`) when absent. -/
def arg_opt (args : List (String × Json)) (k : String) : Json :=
  (jlookup args k).getD .null

/-- `arguments.get(k, d)`. -/
def arg_opt_d (args : List (String × Json)) (k : String) (d : Json) : Json :=
  (jlookup args k).getD d

theorem except_error_bind (e : ε) (f : α → Except ε β) :
    (Except.error e >>= f) = .error e := rfl

theorem except_ok_bind (v : α) (f : α → Except ε β) :
    (Except.ok v >>= f) = f v := rfl

/-- The JIRA client method invoked by a `call_tool` branch, with the
argument values the dispatcher extracted (one constructor per branch of the
chain, fields in the order the Python passes them). -/
inductive JiraCall where
  | list_projects
  | get_project (project_key : Json)
  | create_project (key name project_type_key lead_account_id description : Json)
  | search_issues (jql max_results start_at : Json)
  | get_issue (issue_key : Json)
  | create_issue (project_key summary issue_type description priority assignee_id labels : Json)
  | update_issue (issue_key summary description priority assignee_id labels
      story_points sprint acceptance_criteria technical_requirements : Json)
  | delete_issue (issue_key : Json)
  | assign_issue (issue_key assignee_id : Json)
  | transition_issue (issue_key transition_id transition_name : Json)
  | add_comment (issue_key comment : Json)
  | delete_comment (issue_key comment_id : Json)
  | list_sprints (board_id : Json)
  | get_sprint (sprint_id : Json)
  | create_sprint (board_id name start_date end_date goal : Json)
  | move_issues_to_sprint (sprint_id issue_keys : Json)
  | list_boards
  | get_board (board_id : Json)
  | search_users (query : Json)
  | get_current_user
  | get_custom_fields
deriving Repr

/-- The argument-extraction half of the JIRA `call_tool` chain
(src/server.py lines 341-442): which client call the branch for `name`
builds from `arguments`, `.ok none` for the `else` (unknown tool) branch,
and the first `KeyError` when a directly-indexed key is missing.  In every
branch the Python evaluates all argument expressions left to right before
awaiting the client, so extraction errors precede any HTTP activity. -/
def jira_tool_call (name : String) (args : List (String × Json)) :
    Except Exn (Option JiraCall) :=
  if name = "list_projects" then .ok (some .list_projects)
  else if name = "get_project" then do
    .ok (some (.get_project (← arg_req args "project_key")))
  else if name = "create_project" then do
    let k ← arg_req args "key"
    let n ← arg_req args "name"
    .ok (some (.create_project k n (arg_opt_d args "project_type_key" (.str "software"))
      (arg_opt args "lead_account_id") (arg_opt args "description")))
  else if name = "search_issues" then do
    .ok (some (.search_issues (← arg_req args "jql")
      (arg_opt_d args "max_results" (.num 50)) (arg_opt_d args "start_at" (.num 0))))
  else if name = "get_issue" then do
    .ok (some (.get_issue (← arg_req args "issue_key")))
  else if name = "create_issue" then do
    let pk ← arg_req args "project_key"
    let sm ← arg_req args "summary"
    let it ← arg_req args "issue_type"
    .ok (some (.create_issue pk sm it (arg_opt args "description")
      (arg_opt args "priority") (arg_opt args "assignee_id") (arg_opt args "labels")))
  else if name = "update_issue" then do
    .ok (some (.update_issue (← arg_req args "issue_key") (arg_opt args "summary")
      (arg_opt args "description") (arg_opt args "priority") (arg_opt args "assignee_id")
      (arg_opt args "labels") (arg_opt args "story_points") (arg_opt args "sprint")
      (arg_opt args "acceptance_criteria") (arg_opt args "technical_requirements")))
  else if name = "delete_issue" then do
    .ok (some (.delete_issue (← arg_req args "issue_key")))
  else if name = "assign_issue" then do
    let ik ← arg_req args "issue_key"
    let ai ← arg_req args "assignee_id"
    .ok (some (.assign_issue ik ai))
  else if name = "transition_issue" then do
    .ok (some (.transition_issue (← arg_req args "issue_key")
      (arg_opt args "transition_id") (arg_opt args "transition_name")))
  else if name = "add_comment" then do
    let ik ← arg_req args "issue_key"
    let cm ← arg_req args "comment"
    .ok (some (.add_comment ik cm))
  else if name = "delete_comment" then do
    let ik ← arg_req args "issue_key"
    let ci ← arg_req args "comment_id"
    .ok (some (.delete_comment ik ci))
  else if name = "list_sprints" then do
    .ok (some (.list_sprints (← arg_req args "board_id")))
  else if name = "get_sprint" then do
    .ok (some (.get_sprint (← arg_req args "sprint_id")))
  else if name = "create_sprint" then do
    let bi ← arg_req args "board_id"
    let n ← arg_req args "name"
    .ok (some (.create_sprint bi n (arg_opt args "start_date")
      (arg_opt args "end_date") (arg_opt args "goal")))
  else if name = "move_issues_to_sprint" then do
    let si ← arg_req args "sprint_id"
    let ik ← arg_req args "issue_keys"
    .ok (some (.move_issues_to_sprint si ik))
  else if name = "list_boards" then .ok (some .list_boards)
  else if name = "get_board" then do
    .ok (some (.get_board (← arg_req args "board_id")))
  else if name = "search_users" then do
    .ok (some (.search_users (← arg_req args "query")))
  else if name = "get_current_user" then .ok (some .get_current_user)
  else if name = "get_custom_fields" then .ok (some .get_custom_fields)
  else .ok none

/-- The tool names in the JIRA registry (`list_tools`, src/server.py lines
62-332); the same names guard the `call_tool` chain. -/
def jira_tool_names : List String :=
  ["list_projects", "get_project", "create_project", "search_issues", "get_issue",
   "create_issue", "update_issue", "delete_issue", "assign_issue", "transition_issue",
   "add_comment", "delete_comment", "list_sprints", "get_sprint", "create_sprint",
   "move_issues_to_sprint", "list_boards", "get_board", "search_users",
   "get_current_user", "get_custom_fields"]

/-- The `required` list each JIRA tool's `inputSchema` declares
(src/server.py lines 62-332). -/
def jira_required : String → List String
  | "get_project" => ["project_key"]
  | "create_project" => ["key", "name"]
  | "search_issues" => ["jql"]
  | "get_issue" => ["issue_key"]
  | "create_issue" => ["project_key", "summary", "issue_type"]
  | "update_issue" => ["issue_key"]
  | "delete_issue" => ["issue_key"]
  | "assign_issue" => ["issue_key", "assignee_id"]
  | "transition_issue" => ["issue_key"]
  | "add_comment" => ["issue_key", "comment"]
  | "delete_comment" => ["issue_key", "comment_id"]
  | "list_sprints" => ["board_id"]
  | "get_sprint" => ["sprint_id"]
  | "create_sprint" => ["board_id", "name"]
  | "move_issues_to_sprint" => ["sprint_id", "issue_keys"]
  | "get_board" => ["board_id"]
  | "search_users" => ["query"]
  | _ => []

/-- The `try`/`except` boundary shared verbatim by both servers'
`call_tool`: run the branch selected by `tool_call`; an unknown name yields
the literal `Unknown tool: {name}` text; a successful client result is
serialized (`json.dumps`, abstracted as the `serialize` parameter); any
exception — `KeyError` from extraction or a client failure — is caught and
rendered as the successful text payload `Error: {str(e)}`.  The second
component records the client calls performed (at most one per dispatch;
empty exactly when no HTTP activity happened). -/
def call_tool_boundary (serialize : Json → String) (client : κ → Except String Json)
    (tool_call : String → List (String × Json) → Except Exn (Option κ))
    (name : String) (args : List (String × Json)) : List TextContent × List κ :=
  match tool_call name args with
  | .error e => ([⟨"text", "Error: " ++ e.message⟩], [])
  | .ok none => ([⟨"text", "Unknown tool: " ++ name⟩], [])
  | .ok (some c) =>
    match client c with
    | .ok j => ([⟨"text", serialize j⟩], [c])
    | .error m => ([⟨"text", "Error: " ++ m⟩], [c])

/-- The JIRA server's `call_tool` (src/server.py lines 334-448). -/
def jira_dispatch (serialize : Json → String) (client : JiraCall → Except String Json)
    (name : String) (args : List (String × Json)) : List TextContent × List JiraCall :=
  call_tool_boundary serialize client jira_tool_call name args

/-- The Bitbucket client method invoked by a `call_tool` branch
(bitbucket-mcp/src/server.py lines 446-603), fields in the order the Python
passes them. -/
inductive BitbucketCall where
  | get_repository (workspace repo_slug : Json)
  | list_repositories (workspace : Json)
  | create_repository (workspace repo_slug is_private description project_key : Json)
  | search_code (workspace repo_slug search_query : Json)
  | list_pull_requests (workspace repo_slug state : Json)
  | get_pull_request (workspace repo_slug pr_id : Json)
  | create_pull_request (workspace repo_slug title source_branch destination_branch
      description close_source_branch : Json)
  | update_pull_request (workspace repo_slug pr_id title description : Json)
  | merge_pull_request (workspace repo_slug pr_id merge_strategy message : Json)
  | decline_pull_request (workspace repo_slug pr_id : Json)
  | approve_pull_request (workspace repo_slug pr_id : Json)
  | unapprove_pull_request (workspace repo_slug pr_id : Json)
  | list_pr_comments (workspace repo_slug pr_id : Json)
  | add_pr_comment (workspace repo_slug pr_id content : Json)
  | list_branches (workspace repo_slug : Json)
  | get_branch (workspace repo_slug branch_name : Json)
  | create_branch (workspace repo_slug branch_name target : Json)
  | delete_branch (workspace repo_slug branch_name : Json)
  | list_commits (workspace repo_slug branch : Json)
  | get_commit (workspace repo_slug commit_hash : Json)
  | get_commit_diff (workspace repo_slug commit_hash : Json)
  | list_issues (workspace repo_slug state : Json)
  | get_issue (workspace repo_slug issue_id : Json)
  | create_issue (workspace repo_slug title description kind priority : Json)
  | update_issue (workspace repo_slug issue_id title description state kind priority : Json)
  | list_workspaces
  | get_workspace (workspace : Json)
deriving Repr

/-- The argument-extraction half of the Bitbucket `call_tool` chain
(bitbucket-mcp/src/server.py lines 446-597), mirroring the elif order and
the per-branch extraction order of the Python. -/
def bitbucket_tool_call (name : String) (args : List (String × Json)) :
    Except Exn (Option BitbucketCall) :=
  if name = "get_repository" then do
    let w ← arg_req args "workspace"
    let r ← arg_req args "repo_slug"
    .ok (some (.get_repository w r))
  else if name = "list_repositories" then do
    .ok (some (.list_repositories (← arg_req args "workspace")))
  else if name = "create_repository" then do
    let w ← arg_req args "workspace"
    let r ← arg_req args "repo_slug"
    .ok (some (.create_repository w r (arg_opt_d args "is_private" (.bool true))
      (arg_opt args "description") (arg_opt args "project_key")))
  else if name = "search_code" then do
    let w ← arg_req args "workspace"
    let r ← arg_req args "repo_slug"
    let q ← arg_req args "search_query"
    .ok (some (.search_code w r q))
  else if name = "list_pull_requests" then do
    let w ← arg_req args "workspace"
    let r ← arg_req args "repo_slug"
    .ok (some (.list_pull_requests w r (arg_opt args "state")))
  else if name = "get_pull_request" then do
    let w ← arg_req args "workspace"
    let r ← arg_req args "repo_slug"
    let i ← arg_req args "pr_id"
    .ok (some (.get_pull_request w r i))
  else if name = "create_pull_request" then do
    let w ← arg_req args "workspace"
    let r ← arg_req args "repo_slug"
    let t ← arg_req args "title"
    let sb ← arg_req args "source_branch"
    let db ← arg_req args "destination_branch"
    .ok (some (.create_pull_request w r t sb db (arg_opt args "description")
      (arg_opt_d args "close_source_branch" (.bool false))))
  else if name = "update_pull_request" then do
    let w ← arg_req args "workspace"
    let r ← arg_req args "repo_slug"
    let i ← arg_req args "pr_id"
    .ok (some (.update_pull_request w r i (arg_opt args "title") (arg_opt args "description")))
  else if name = "merge_pull_request" then do
    let w ← arg_req args "workspace"
    let r ← arg_req args "repo_slug"
    let i ← arg_req args "pr_id"
    .ok (some (.merge_pull_request w r i
      (arg_opt_d args "merge_strategy" (.str "merge_commit")) (arg_opt args "message")))
  else if name = "decline_pull_request" then do
    let w ← arg_req args "workspace"
    let r ← arg_req args "repo_slug"
    let i ← arg_req args "pr_id"
    .ok (some (.decline_pull_request w r i))
  else if name = "approve_pull_request" then do
    let w ← arg_req args "workspace"
    let r ← arg_req args "repo_slug"
    let i ← arg_req args "pr_id"
    .ok (some (.approve_pull_request w r i))
  else if name = "unapprove_pull_request" then do
    let w ← arg_req args "workspace"
    let r ← arg_req args "repo_slug"
    let i ← arg_req args "pr_id"
    .ok (some (.unapprove_pull_request w r i))
  else if name = "list_pr_comments" then do
    let w ← arg_req args "workspace"
    let r ← arg_req args "repo_slug"
    let i ← arg_req args "pr_id"
    .ok (some (.list_pr_comments w r i))
  else if name = "add_pr_comment" then do
    let w ← arg_req args "workspace"
    let r ← arg_req args "repo_slug"
    let i ← arg_req args "pr_id"
    let c ← arg_req args "content"
    .ok (some (.add_pr_comment w r i c))
  else if name = "list_branches" then do
    let w ← arg_req args "workspace"
    let r ← arg_req args "repo_slug"
    .ok (some (.list_branches w r))
  else if name = "get_branch" then do
    let w ← arg_req args "workspace"
    let r ← arg_req args "repo_slug"
    let b ← arg_req args "branch_name"
    .ok (some (.get_branch w r b))
  else if name = "create_branch" then do
    let w ← arg_req args "workspace"
    let r ← arg_req args "repo_slug"
    let b ← arg_req args "branch_name"
    let t ← arg_req args "target"
    .ok (some (.create_branch w r b t))
  else if name = "delete_branch" then do
    let w ← arg_req args "workspace"
    let r ← arg_req args "repo_slug"
    let b ← arg_req args "branch_name"
    .ok (some (.delete_branch w r b))
  else if name = "list_commits" then do
    let w ← arg_req args "workspace"
    let r ← arg_req args "repo_slug"
    .ok (some (.list_commits w r (arg_opt args "branch")))
  else if name = "get_commit" then do
    let w ← arg_req args "workspace"
    let r ← arg_req args "repo_slug"
    let c ← arg_req args "commit_hash"
    .ok (some (.get_commit w r c))
  else if name = "get_commit_diff" then do
    let w ← arg_req args "workspace"
    let r ← arg_req args "repo_slug"
    let c ← arg_req args "commit_hash"
    .ok (some (.get_commit_diff w r c))
  else if name = "list_issues" then do
    let w ← arg_req args "workspace"
    let r ← arg_req args "repo_slug"
    .ok (some (.list_issues w r (arg_opt args "state")))
  else if name = "get_issue" then do
    let w ← arg_req args "workspace"
    let r ← arg_req args "repo_slug"
    let i ← arg_req args "issue_id"
    .ok (some (.get_issue w r i))
  else if name = "create_issue" then do
    let w ← arg_req args "workspace"
    let r ← arg_req args "repo_slug"
    let t ← arg_req args "title"
    .ok (some (.create_issue w r t (arg_opt args "description")
      (arg_opt_d args "kind" (.str "bug")) (arg_opt_d args "priority" (.str "major"))))
  else if name = "update_issue" then do
    let w ← arg_req args "workspace"
    let r ← arg_req args "repo_slug"
    let i ← arg_req args "issue_id"
    .ok (some (.update_issue w r i (arg_opt args "title") (arg_opt args "description")
      (arg_opt args "state") (arg_opt args "kind") (arg_opt args "priority")))
  else if name = "list_workspaces" then .ok (some .list_workspaces)
  else if name = "get_workspace" then do
    .ok (some (.get_workspace (← arg_req args "workspace")))
  else .ok none

/-- The tool names in the Bitbucket registry (`list_tools`,
bitbucket-mcp/src/server.py lines 46-444). -/
def bitbucket_tool_names : List String :=
  ["get_repository", "list_repositories", "create_repository", "search_code",
   "list_pull_requests", "get_pull_request", "create_pull_request",
   "update_pull_request", "merge_pull_request", "decline_pull_request",
   "approve_pull_request", "unapprove_pull_request", "list_pr_comments",
   "add_pr_comment", "list_branches", "get_branch", "create_branch",
   "delete_branch", "list_commits", "get_commit", "get_commit_diff",
   "list_issues", "get_issue", "create_issue", "update_issue",
   "list_workspaces", "get_workspace"]

/-- The `required` list each Bitbucket tool's `inputSchema` declares
(bitbucket-mcp/src/server.py lines 46-444). -/
def bitbucket_required : String → List String
  | "get_repository" => ["workspace", "repo_slug"]
  | "list_repositories" => ["workspace"]
  | "create_repository" => ["workspace", "repo_slug"]
  | "search_code" => ["workspace", "repo_slug", "search_query"]
  | "list_pull_requests" => ["workspace", "repo_slug"]
  | "get_pull_request" => ["workspace", "repo_slug", "pr_id"]
  | "create_pull_request" =>
    ["workspace", "repo_slug", "title", "source_branch", "destination_branch"]
  | "update_pull_request" => ["workspace", "repo_slug", "pr_id"]
  | "merge_pull_request" => ["workspace", "repo_slug", "pr_id"]
  | "decline_pull_request" => ["workspace", "repo_slug", "pr_id"]
  | "approve_pull_request" => ["workspace", "repo_slug", "pr_id"]
  | "unapprove_pull_request" => ["workspace", "repo_slug", "pr_id"]
  | "list_pr_comments" => ["workspace", "repo_slug", "pr_id"]
  | "add_pr_comment" => ["workspace", "repo_slug", "pr_id", "content"]
  | "list_branches" => ["workspace", "repo_slug"]
  | "get_branch" => ["workspace", "repo_slug", "branch_name"]
  | "create_branch" => ["workspace", "repo_slug", "branch_name", "target"]
  | "delete_branch" => ["workspace", "repo_slug", "branch_name"]
  | "list_commits" => ["workspace", "repo_slug"]
  | "get_commit" => ["workspace", "repo_slug", "commit_hash"]
  | "get_commit_diff" => ["workspace", "repo_slug", "commit_hash"]
  | "list_issues" => ["workspace", "repo_slug"]
  | "get_issue" => ["workspace", "repo_slug", "issue_id"]
  | "create_issue" => ["workspace", "repo_slug", "title"]
  | "update_issue" => ["workspace", "repo_slug", "issue_id"]
  | "get_workspace" => ["workspace"]
  | _ => []

/-- The Bitbucket server's `call_tool`
(bitbucket-mcp/src/server.py lines 446-603). -/
def bitbucket_dispatch (serialize : Json → String)
    (client : BitbucketCall → Except String Json)
    (name : String) (args : List (String × Json)) :
    List TextContent × List BitbucketCall :=
  call_tool_boundary serialize client bitbucket_tool_call name args

set_option maxHeartbeats 2000000 in
/-- If a registered JIRA tool is dispatched with some schema-required
argument missing, the branch's direct keyed extraction raises a `KeyError`
for the first missing required key, before any client call is built. -/
theorem jira_missing_required_key_error (name : String) (args : List (String × Json))
    (h : name ∈ jira_tool_names)
    (hmiss : ∃ k ∈ jira_required name, jlookup args k = none) :
    ∃ k, k ∈ jira_required name ∧ jlookup args k = none ∧
      jira_tool_call name args = .error (.key_error k) := by
  simp only [jira_tool_names, List.mem_cons, List.not_mem_nil, or_false] at h
  rcases h with rfl | rfl | rfl | rfl | rfl | rfl | rfl | rfl | rfl | rfl | rfl | rfl | rfl | rfl | rfl | rfl | rfl | rfl | rfl | rfl | rfl
  · simp [jira_required] at hmiss
  · cases h1 : jlookup args "project_key" with
    | none =>
      exact ⟨"project_key", by simp [jira_required], h1,
        by simp only [jira_tool_call, arg_req, String.reduceEq, reduceIte, h1, except_error_bind]⟩
    | some v1 =>
      obtain ⟨k, hkm, hnone⟩ := hmiss
      simp [jira_required] at hkm
      subst hkm
      simp [h1] at hnone
  · cases h1 : jlookup args "key" with
    | none =>
      exact ⟨"key", by simp [jira_required], h1,
        by simp only [jira_tool_call, arg_req, String.reduceEq, reduceIte, h1, except_error_bind]⟩
    | some v1 =>
      cases h2 : jlookup args "name" with
      | none =>
        exact ⟨"name", by simp [jira_required], h2,
          by simp only [jira_tool_call, arg_req, String.reduceEq, reduceIte, h1, h2, except_error_bind, except_ok_bind]⟩
      | some v2 =>
        obtain ⟨k, hkm, hnone⟩ := hmiss
        simp [jira_required] at hkm
        rcases hkm with rfl | rfl
        · simp [h1] at hnone
        · simp [h2] at hnone
  · cases h1 : jlookup args "jql" with
    | none =>
      exact ⟨"jql", by simp [jira_required], h1,
        by simp only [jira_tool_call, arg_req, String.reduceEq, reduceIte, h1, except_error_bind]⟩
    | some v1 =>
      obtain ⟨k, hkm, hnone⟩ := hmiss
      simp [jira_required] at hkm
      subst hkm
      simp [h1] at hnone
  · cases h1 : jlookup args "issue_key" with
    | none =>
      exact ⟨"issue_key", by simp [jira_required], h1,
        by simp only [jira_tool_call, arg_req, String.reduceEq, reduceIte, h1, except_error_bind]⟩
    | some v1 =>
      obtain ⟨k, hkm, hnone⟩ := hmiss
      simp [jira_required] at hkm
      subst hkm
      simp [h1] at hnone
  · cases h1 : jlookup args "project_key" with
    | none =>
      exact ⟨"project_key", by simp [jira_required], h1,
        by simp only [jira_tool_call, arg_req, String.reduceEq, reduceIte, h1, except_error_bind]⟩
    | some v1 =>
      cases h2 : jlookup args "summary" with
      | none =>
        exact ⟨"summary", by simp [jira_required], h2,
          by simp only [jira_tool_call, arg_req, String.reduceEq, reduceIte, h1, h2, except_error_bind, except_ok_bind]⟩
      | some v2 =>
        cases h3 : jlookup args "issue_type" with
        | none =>
          exact ⟨"issue_type", by simp [jira_required], h3,
            by simp only [jira_tool_call, arg_req, String.reduceEq, reduceIte, h1, h2, h3, except_error_bind, except_ok_bind]⟩
        | some v3 =>
          obtain ⟨k, hkm, hnone⟩ := hmiss
          simp [jira_required] at hkm
          rcases hkm with rfl | rfl | rfl
          · simp [h1] at hnone
          · simp [h2] at hnone
          · simp [h3] at hnone
  · cases h1 : jlookup args "issue_key" with
    | none =>
      exact ⟨"issue_key", by simp [jira_required], h1,
        by simp only [jira_tool_call, arg_req, String.reduceEq, reduceIte, h1, except_error_bind]⟩
    | some v1 =>
      obtain ⟨k, hkm, hnone⟩ := hmiss
      simp [jira_required] at hkm
      subst hkm
      simp [h1] at hnone
  · cases h1 : jlookup args "issue_key" with
    | none =>
      exact ⟨"issue_key", by simp [jira_required], h1,
        by simp only [jira_tool_call, arg_req, String.reduceEq, reduceIte, h1, except_error_bind]⟩
    | some v1 =>
      obtain ⟨k, hkm, hnone⟩ := hmiss
      simp [jira_required] at hkm
      subst hkm
      simp [h1] at hnone
  · cases h1 : jlookup args "issue_key" with
    | none =>
      exact ⟨"issue_key", by simp [jira_required], h1,
        by simp only [jira_tool_call, arg_req, String.reduceEq, reduceIte, h1, except_error_bind]⟩
    | some v1 =>
      cases h2 : jlookup args "assignee_id" with
      | none =>
        exact ⟨"assignee_id", by simp [jira_required], h2,
          by simp only [jira_tool_call, arg_req, String.reduceEq, reduceIte, h1, h2, except_error_bind, except_ok_bind]⟩
      | some v2 =>
        obtain ⟨k, hkm, hnone⟩ := hmiss
        simp [jira_required] at hkm
        rcases hkm with rfl | rfl
        · simp [h1] at hnone
        · simp [h2] at hnone
  · cases h1 : jlookup args "issue_key" with
    | none =>
      exact ⟨"issue_key", by simp [jira_required], h1,
        by simp only [jira_tool_call, arg_req, String.reduceEq, reduceIte, h1, except_error_bind]⟩
    | some v1 =>
      obtain ⟨k, hkm, hnone⟩ := hmiss
      simp [jira_required] at hkm
      subst hkm
      simp [h1] at hnone
  · cases h1 : jlookup args "issue_key" with
    | none =>
      exact ⟨"issue_key", by simp [jira_required], h1,
        by simp only [jira_tool_call, arg_req, String.reduceEq, reduceIte, h1, except_error_bind]⟩
    | some v1 =>
      cases h2 : jlookup args "comment" with
      | none =>
        exact ⟨"comment", by simp [jira_required], h2,
          by simp only [jira_tool_call, arg_req, String.reduceEq, reduceIte, h1, h2, except_error_bind, except_ok_bind]⟩
      | some v2 =>
        obtain ⟨k, hkm, hnone⟩ := hmiss
        simp [jira_required] at hkm
        rcases hkm with rfl | rfl
        · simp [h1] at hnone
        · simp [h2] at hnone
  · cases h1 : jlookup args "issue_key" with
    | none =>
      exact ⟨"issue_key", by simp [jira_required], h1,
        by simp only [jira_tool_call, arg_req, String.reduceEq, reduceIte, h1, except_error_bind]⟩
    | some v1 =>
      cases h2 : jlookup args "comment_id" with
      | none =>
        exact ⟨"comment_id", by simp [jira_required], h2,
          by simp only [jira_tool_call, arg_req, String.reduceEq, reduceIte, h1, h2, except_error_bind, except_ok_bind]⟩
      | some v2 =>
        obtain ⟨k, hkm, hnone⟩ := hmiss
        simp [jira_required] at hkm
        rcases hkm with rfl | rfl
        · simp [h1] at hnone
        · simp [h2] at hnone
  · cases h1 : jlookup args "board_id" with
    | none =>
      exact ⟨"board_id", by simp [jira_required], h1,
        by simp only [jira_tool_call, arg_req, String.reduceEq, reduceIte, h1, except_error_bind]⟩
    | some v1 =>
      obtain ⟨k, hkm, hnone⟩ := hmiss
      simp [jira_required] at hkm
      subst hkm
      simp [h1] at hnone
  · cases h1 : jlookup args "sprint_id" with
    | none =>
      exact ⟨"sprint_id", by simp [jira_required], h1,
        by simp only [jira_tool_call, arg_req, String.reduceEq, reduceIte, h1, except_error_bind]⟩
    | some v1 =>
      obtain ⟨k, hkm, hnone⟩ := hmiss
      simp [jira_required] at hkm
      subst hkm
      simp [h1] at hnone
  · cases h1 : jlookup args "board_id" with
    | none =>
      exact ⟨"board_id", by simp [jira_required], h1,
        by simp only [jira_tool_call, arg_req, String.reduceEq, reduceIte, h1, except_error_bind]⟩
    | some v1 =>
      cases h2 : jlookup args "name" with
      | none =>
        exact ⟨"name", by simp [jira_required], h2,
          by simp only [jira_tool_call, arg_req, String.reduceEq, reduceIte, h1, h2, except_error_bind, except_ok_bind]⟩
      | some v2 =>
        obtain ⟨k, hkm, hnone⟩ := hmiss
        simp [jira_required] at hkm
        rcases hkm with rfl | rfl
        · simp [h1] at hnone
        · simp [h2] at hnone
  · cases h1 : jlookup args "sprint_id" with
    | none =>
      exact ⟨"sprint_id", by simp [jira_required], h1,
        by simp only [jira_tool_call, arg_req, String.reduceEq, reduceIte, h1, except_error_bind]⟩
    | some v1 =>
      cases h2 : jlookup args "issue_keys" with
      | none =>
        exact ⟨"issue_keys", by simp [jira_required], h2,
          by simp only [jira_tool_call, arg_req, String.reduceEq, reduceIte, h1, h2, except_error_bind, except_ok_bind]⟩
      | some v2 =>
        obtain ⟨k, hkm, hnone⟩ := hmiss
        simp [jira_required] at hkm
        rcases hkm with rfl | rfl
        · simp [h1] at hnone
        · simp [h2] at hnone
  · simp [jira_required] at hmiss
  · cases h1 : jlookup args "board_id" with
    | none =>
      exact ⟨"board_id", by simp [jira_required], h1,
        by simp only [jira_tool_call, arg_req, String.reduceEq, reduceIte, h1, except_error_bind]⟩
    | some v1 =>
      obtain ⟨k, hkm, hnone⟩ := hmiss
      simp [jira_required] at hkm
      subst hkm
      simp [h1] at hnone
  · cases h1 : jlookup args "query" with
    | none =>
      exact ⟨"query", by simp [jira_required], h1,
        by simp only [jira_tool_call, arg_req, String.reduceEq, reduceIte, h1, except_error_bind]⟩
    | some v1 =>
      obtain ⟨k, hkm, hnone⟩ := hmiss
      simp [jira_required] at hkm
      subst hkm
      simp [h1] at hnone
  · simp [jira_required] at hmiss
  · simp [jira_required] at hmiss

set_option maxHeartbeats 4000000 in
/-- If a registered Bitbucket tool is dispatched with some schema-required
argument missing, the branch's direct keyed extraction raises a `KeyError`
for the first missing required key, before any client call is built. -/
theorem bitbucket_missing_required_key_error (name : String) (args : List (String × Json))
    (h : name ∈ bitbucket_tool_names)
    (hmiss : ∃ k ∈ bitbucket_required name, jlookup args k = none) :
    ∃ k, k ∈ bitbucket_required name ∧ jlookup args k = none ∧
      bitbucket_tool_call name args = .error (.key_error k) := by
  simp only [bitbucket_tool_names, List.mem_cons, List.not_mem_nil, or_false] at h
  rcases h with rfl | rfl | rfl | rfl | rfl | rfl | rfl | rfl | rfl | rfl | rfl | rfl | rfl | rfl | rfl | rfl | rfl | rfl | rfl | rfl | rfl | rfl | rfl | rfl | rfl | rfl | rfl
  · cases h1 : jlookup args "workspace" with
    | none =>
      exact ⟨"workspace", by simp [bitbucket_required], h1,
        by simp only [bitbucket_tool_call, arg_req, String.reduceEq, reduceIte, h1, except_error_bind]⟩
    | some v1 =>
      cases h2 : jlookup args "repo_slug" with
      | none =>
        exact ⟨"repo_slug", by simp [bitbucket_required], h2,
          by simp only [bitbucket_tool_call, arg_req, String.reduceEq, reduceIte, h1, h2, except_error_bind, except_ok_bind]⟩
      | some v2 =>
        obtain ⟨k, hkm, hnone⟩ := hmiss
        simp [bitbucket_required] at hkm
        rcases hkm with rfl | rfl
        · simp [h1] at hnone
        · simp [h2] at hnone
  · cases h1 : jlookup args "workspace" with
    | none =>
      exact ⟨"workspace", by simp [bitbucket_required], h1,
        by simp only [bitbucket_tool_call, arg_req, String.reduceEq, reduceIte, h1, except_error_bind]⟩
    | some v1 =>
      obtain ⟨k, hkm, hnone⟩ := hmiss
      simp [bitbucket_required] at hkm
      subst hkm
      simp [h1] at hnone
  · cases h1 : jlookup args "workspace" with
    | none =>
      exact ⟨"workspace", by simp [bitbucket_required], h1,
        by simp only [bitbucket_tool_call, arg_req, String.reduceEq, reduceIte, h1, except_error_bind]⟩
    | some v1 =>
      cases h2 : jlookup args "repo_slug" with
      | none =>
        exact ⟨"repo_slug", by simp [bitbucket_required], h2,
          by simp only [bitbucket_tool_call, arg_req, String.reduceEq, reduceIte, h1, h2, except_error_bind, except_ok_bind]⟩
      | some v2 =>
        obtain ⟨k, hkm, hnone⟩ := hmiss
        simp [bitbucket_required] at hkm
        rcases hkm with rfl | rfl
        · simp [h1] at hnone
        · simp [h2] at hnone
  · cases h1 : jlookup args "workspace" with
    | none =>
      exact ⟨"workspace", by simp [bitbucket_required], h1,
        by simp only [bitbucket_tool_call, arg_req, String.reduceEq, reduceIte, h1, except_error_bind]⟩
    | some v1 =>
      cases h2 : jlookup args "repo_slug" with
      | none =>
        exact ⟨"repo_slug", by simp [bitbucket_required], h2,
          by simp only [bitbucket_tool_call, arg_req, String.reduceEq, reduceIte, h1, h2, except_error_bind, except_ok_bind]⟩
      | some v2 =>
        cases h3 : jlookup args "search_query" with
        | none =>
          exact ⟨"search_query", by simp [bitbucket_required], h3,
            by simp only [bitbucket_tool_call, arg_req, String.reduceEq, reduceIte, h1, h2, h3, except_error_bind, except_ok_bind]⟩
        | some v3 =>
          obtain ⟨k, hkm, hnone⟩ := hmiss
          simp [bitbucket_required] at hkm
          rcases hkm with rfl | rfl | rfl
          · simp [h1] at hnone
          · simp [h2] at hnone
          · simp [h3] at hnone
  · cases h1 : jlookup args "workspace" with
    | none =>
      exact ⟨"workspace", by simp [bitbucket_required], h1,
        by simp only [bitbucket_tool_call, arg_req, String.reduceEq, reduceIte, h1, except_error_bind]⟩
    | some v1 =>
      cases h2 : jlookup args "repo_slug" with
      | none =>
        exact ⟨"repo_slug", by simp [bitbucket_required], h2,
          by simp only [bitbucket_tool_call, arg_req, String.reduceEq, reduceIte, h1, h2, except_error_bind, except_ok_bind]⟩
      | some v2 =>
        obtain ⟨k, hkm, hnone⟩ := hmiss
        simp [bitbucket_required] at hkm
        rcases hkm with rfl | rfl
        · simp [h1] at hnone
        · simp [h2] at hnone
  · cases h1 : jlookup args "workspace" with
    | none =>
      exact ⟨"workspace", by simp [bitbucket_required], h1,
        by simp only [bitbucket_tool_call, arg_req, String.reduceEq, reduceIte, h1, except_error_bind]⟩
    | some v1 =>
      cases h2 : jlookup args "repo_slug" with
      | none =>
        exact ⟨"repo_slug", by simp [bitbucket_required], h2,
          by simp only [bitbucket_tool_call, arg_req, String.reduceEq, reduceIte, h1, h2, except_error_bind, except_ok_bind]⟩
      | some v2 =>
        cases h3 : jlookup args "pr_id" with
        | none =>
          exact ⟨"pr_id", by simp [bitbucket_required], h3,
            by simp only [bitbucket_tool_call, arg_req, String.reduceEq, reduceIte, h1, h2, h3, except_error_bind, except_ok_bind]⟩
        | some v3 =>
          obtain ⟨k, hkm, hnone⟩ := hmiss
          simp [bitbucket_required] at hkm
          rcases hkm with rfl | rfl | rfl
          · simp [h1] at hnone
          · simp [h2] at hnone
          · simp [h3] at hnone
  · cases h1 : jlookup args "workspace" with
    | none =>
      exact ⟨"workspace", by simp [bitbucket_required], h1,
        by simp only [bitbucket_tool_call, arg_req, String.reduceEq, reduceIte, h1, except_error_bind]⟩
    | some v1 =>
      cases h2 : jlookup args "repo_slug" with
      | none =>
        exact ⟨"repo_slug", by simp [bitbucket_required], h2,
          by simp only [bitbucket_tool_call, arg_req, String.reduceEq, reduceIte, h1, h2, except_error_bind, except_ok_bind]⟩
      | some v2 =>
        cases h3 : jlookup args "title" with
        | none =>
          exact ⟨"title", by simp [bitbucket_required], h3,
            by simp only [bitbucket_tool_call, arg_req, String.reduceEq, reduceIte, h1, h2, h3, except_error_bind, except_ok_bind]⟩
        | some v3 =>
          cases h4 : jlookup args "source_branch" with
          | none =>
            exact ⟨"source_branch", by simp [bitbucket_required], h4,
              by simp only [bitbucket_tool_call, arg_req, String.reduceEq, reduceIte, h1, h2, h3, h4, except_error_bind, except_ok_bind]⟩
          | some v4 =>
            cases h5 : jlookup args "destination_branch" with
            | none =>
              exact ⟨"destination_branch", by simp [bitbucket_required], h5,
                by simp only [bitbucket_tool_call, arg_req, String.reduceEq, reduceIte, h1, h2, h3, h4, h5, except_error_bind, except_ok_bind]⟩
            | some v5 =>
              obtain ⟨k, hkm, hnone⟩ := hmiss
              simp [bitbucket_required] at hkm
              rcases hkm with rfl | rfl | rfl | rfl | rfl
              · simp [h1] at hnone
              · simp [h2] at hnone
              · simp [h3] at hnone
              · simp [h4] at hnone
              · simp [h5] at hnone
  · cases h1 : jlookup args "workspace" with
    | none =>
      exact ⟨"workspace", by simp [bitbucket_required], h1,
        by simp only [bitbucket_tool_call, arg_req, String.reduceEq, reduceIte, h1, except_error_bind]⟩
    | some v1 =>
      cases h2 : jlookup args "repo_slug" with
      | none =>
        exact ⟨"repo_slug", by simp [bitbucket_required], h2,
          by simp only [bitbucket_tool_call, arg_req, String.reduceEq, reduceIte, h1, h2, except_error_bind, except_ok_bind]⟩
      | some v2 =>
        cases h3 : jlookup args "pr_id" with
        | none =>
          exact ⟨"pr_id", by simp [bitbucket_required], h3,
            by simp only [bitbucket_tool_call, arg_req, String.reduceEq, reduceIte, h1, h2, h3, except_error_bind, except_ok_bind]⟩
        | some v3 =>
          obtain ⟨k, hkm, hnone⟩ := hmiss
          simp [bitbucket_required] at hkm
          rcases hkm with rfl | rfl | rfl
          · simp [h1] at hnone
          · simp [h2] at hnone
          · simp [h3] at hnone
  · cases h1 : jlookup args "workspace" with
    | none =>
      exact ⟨"workspace", by simp [bitbucket_required], h1,
        by simp only [bitbucket_tool_call, arg_req, String.reduceEq, reduceIte, h1, except_error_bind]⟩
    | some v1 =>
      cases h2 : jlookup args "repo_slug" with
      | none =>
        exact ⟨"repo_slug", by simp [bitbucket_required], h2,
          by simp only [bitbucket_tool_call, arg_req, String.reduceEq, reduceIte, h1, h2, except_error_bind, except_ok_bind]⟩
      | some v2 =>
        cases h3 : jlookup args "pr_id" with
        | none =>
          exact ⟨"pr_id", by simp [bitbucket_required], h3,
            by simp only [bitbucket_tool_call, arg_req, String.reduceEq, reduceIte, h1, h2, h3, except_error_bind, except_ok_bind]⟩
        | some v3 =>
          obtain ⟨k, hkm, hnone⟩ := hmiss
          simp [bitbucket_required] at hkm
          rcases hkm with rfl | rfl | rfl
          · simp [h1] at hnone
          · simp [h2] at hnone
          · simp [h3] at hnone
  · cases h1 : jlookup args "workspace" with
    | none =>
      exact ⟨"workspace", by simp [bitbucket_required], h1,
        by simp only [bitbucket_tool_call, arg_req, String.reduceEq, reduceIte, h1, except_error_bind]⟩
    | some v1 =>
      cases h2 : jlookup args "repo_slug" with
      | none =>
        exact ⟨"repo_slug", by simp [bitbucket_required], h2,
          by simp only [bitbucket_tool_call, arg_req, String.reduceEq, reduceIte, h1, h2, except_error_bind, except_ok_bind]⟩
      | some v2 =>
        cases h3 : jlookup args "pr_id" with
        | none =>
          exact ⟨"pr_id", by simp [bitbucket_required], h3,
            by simp only [bitbucket_tool_call, arg_req, String.reduceEq, reduceIte, h1, h2, h3, except_error_bind, except_ok_bind]⟩
        | some v3 =>
          obtain ⟨k, hkm, hnone⟩ := hmiss
          simp [bitbucket_required] at hkm
          rcases hkm with rfl | rfl | rfl
          · simp [h1] at hnone
          · simp [h2] at hnone
          · simp [h3] at hnone
  · cases h1 : jlookup args "workspace" with
    | none =>
      exact ⟨"workspace", by simp [bitbucket_required], h1,
        by simp only [bitbucket_tool_call, arg_req, String.reduceEq, reduceIte, h1, except_error_bind]⟩
    | some v1 =>
      cases h2 : jlookup args "repo_slug" with
      | none =>
        exact ⟨"repo_slug", by simp [bitbucket_required], h2,
          by simp only [bitbucket_tool_call, arg_req, String.reduceEq, reduceIte, h1, h2, except_error_bind, except_ok_bind]⟩
      | some v2 =>
        cases h3 : jlookup args "pr_id" with
        | none =>
          exact ⟨"pr_id", by simp [bitbucket_required], h3,
            by simp only [bitbucket_tool_call, arg_req, String.reduceEq, reduceIte, h1, h2, h3, except_error_bind, except_ok_bind]⟩
        | some v3 =>
          obtain ⟨k, hkm, hnone⟩ := hmiss
          simp [bitbucket_required] at hkm
          rcases hkm with rfl | rfl | rfl
          · simp [h1] at hnone
          · simp [h2] at hnone
          · simp [h3] at hnone
  · cases h1 : jlookup args "workspace" with
    | none =>
      exact ⟨"workspace", by simp [bitbucket_required], h1,
        by simp only [bitbucket_tool_call, arg_req, String.reduceEq, reduceIte, h1, except_error_bind]⟩
    | some v1 =>
      cases h2 : jlookup args "repo_slug" with
      | none =>
        exact ⟨"repo_slug", by simp [bitbucket_required], h2,
          by simp only [bitbucket_tool_call, arg_req, String.reduceEq, reduceIte, h1, h2, except_error_bind, except_ok_bind]⟩
      | some v2 =>
        cases h3 : jlookup args "pr_id" with
        | none =>
          exact ⟨"pr_id", by simp [bitbucket_required], h3,
            by simp only [bitbucket_tool_call, arg_req, String.reduceEq, reduceIte, h1, h2, h3, except_error_bind, except_ok_bind]⟩
        | some v3 =>
          obtain ⟨k, hkm, hnone⟩ := hmiss
          simp [bitbucket_required] at hkm
          rcases hkm with rfl | rfl | rfl
          · simp [h1] at hnone
          · simp [h2] at hnone
          · simp [h3] at hnone
  · cases h1 : jlookup args "workspace" with
    | none =>
      exact ⟨"workspace", by simp [bitbucket_required], h1,
        by simp only [bitbucket_tool_call, arg_req, String.reduceEq, reduceIte, h1, except_error_bind]⟩
    | some v1 =>
      cases h2 : jlookup args "repo_slug" with
      | none =>
        exact ⟨"repo_slug", by simp [bitbucket_required], h2,
          by simp only [bitbucket_tool_call, arg_req, String.reduceEq, reduceIte, h1, h2, except_error_bind, except_ok_bind]⟩
      | some v2 =>
        cases h3 : jlookup args "pr_id" with
        | none =>
          exact ⟨"pr_id", by simp [bitbucket_required], h3,
            by simp only [bitbucket_tool_call, arg_req, String.reduceEq, reduceIte, h1, h2, h3, except_error_bind, except_ok_bind]⟩
        | some v3 =>
          obtain ⟨k, hkm, hnone⟩ := hmiss
          simp [bitbucket_required] at hkm
          rcases hkm with rfl | rfl | rfl
          · simp [h1] at hnone
          · simp [h2] at hnone
          · simp [h3] at hnone
  · cases h1 : jlookup args "workspace" with
    | none =>
      exact ⟨"workspace", by simp [bitbucket_required], h1,
        by simp only [bitbucket_tool_call, arg_req, String.reduceEq, reduceIte, h1, except_error_bind]⟩
    | some v1 =>
      cases h2 : jlookup args "repo_slug" with
      | none =>
        exact ⟨"repo_slug", by simp [bitbucket_required], h2,
          by simp only [bitbucket_tool_call, arg_req, String.reduceEq, reduceIte, h1, h2, except_error_bind, except_ok_bind]⟩
      | some v2 =>
        cases h3 : jlookup args "pr_id" with
        | none =>
          exact ⟨"pr_id", by simp [bitbucket_required], h3,
            by simp only [bitbucket_tool_call, arg_req, String.reduceEq, reduceIte, h1, h2, h3, except_error_bind, except_ok_bind]⟩
        | some v3 =>
          cases h4 : jlookup args "content" with
          | none =>
            exact ⟨"content", by simp [bitbucket_required], h4,
              by simp only [bitbucket_tool_call, arg_req, String.reduceEq, reduceIte, h1, h2, h3, h4, except_error_bind, except_ok_bind]⟩
          | some v4 =>
            obtain ⟨k, hkm, hnone⟩ := hmiss
            simp [bitbucket_required] at hkm
            rcases hkm with rfl | rfl | rfl | rfl
            · simp [h1] at hnone
            · simp [h2] at hnone
            · simp [h3] at hnone
            · simp [h4] at hnone
  · cases h1 : jlookup args "workspace" with
    | none =>
      exact ⟨"workspace", by simp [bitbucket_required], h1,
        by simp only [bitbucket_tool_call, arg_req, String.reduceEq, reduceIte, h1, except_error_bind]⟩
    | some v1 =>
      cases h2 : jlookup args "repo_slug" with
      | none =>
        exact ⟨"repo_slug", by simp [bitbucket_required], h2,
          by simp only [bitbucket_tool_call, arg_req, String.reduceEq, reduceIte, h1, h2, except_error_bind, except_ok_bind]⟩
      | some v2 =>
        obtain ⟨k, hkm, hnone⟩ := hmiss
        simp [bitbucket_required] at hkm
        rcases hkm with rfl | rfl
        · simp [h1] at hnone
        · simp [h2] at hnone
  · cases h1 : jlookup args "workspace" with
    | none =>
      exact ⟨"workspace", by simp [bitbucket_required], h1,
        by simp only [bitbucket_tool_call, arg_req, String.reduceEq, reduceIte, h1, except_error_bind]⟩
    | some v1 =>
      cases h2 : jlookup args "repo_slug" with
      | none =>
        exact ⟨"repo_slug", by simp [bitbucket_required], h2,
          by simp only [bitbucket_tool_call, arg_req, String.reduceEq, reduceIte, h1, h2, except_error_bind, except_ok_bind]⟩
      | some v2 =>
        cases h3 : jlookup args "branch_name" with
        | none =>
          exact ⟨"branch_name", by simp [bitbucket_required], h3,
            by simp only [bitbucket_tool_call, arg_req, String.reduceEq, reduceIte, h1, h2, h3, except_error_bind, except_ok_bind]⟩
        | some v3 =>
          obtain ⟨k, hkm, hnone⟩ := hmiss
          simp [bitbucket_required] at hkm
          rcases hkm with rfl | rfl | rfl
          · simp [h1] at hnone
          · simp [h2] at hnone
          · simp [h3] at hnone
  · cases h1 : jlookup args "workspace" with
    | none =>
      exact ⟨"workspace", by simp [bitbucket_required], h1,
        by simp only [bitbucket_tool_call, arg_req, String.reduceEq, reduceIte, h1, except_error_bind]⟩
    | some v1 =>
      cases h2 : jlookup args "repo_slug" with
      | none =>
        exact ⟨"repo_slug", by simp [bitbucket_required], h2,
          by simp only [bitbucket_tool_call, arg_req, String.reduceEq, reduceIte, h1, h2, except_error_bind, except_ok_bind]⟩
      | some v2 =>
        cases h3 : jlookup args "branch_name" with
        | none =>
          exact ⟨"branch_name", by simp [bitbucket_required], h3,
            by simp only [bitbucket_tool_call, arg_req, String.reduceEq, reduceIte, h1, h2, h3, except_error_bind, except_ok_bind]⟩
        | some v3 =>
          cases h4 : jlookup args "target" with
          | none =>
            exact ⟨"target", by simp [bitbucket_required], h4,
              by simp only [bitbucket_tool_call, arg_req, String.reduceEq, reduceIte, h1, h2, h3, h4, except_error_bind, except_ok_bind]⟩
          | some v4 =>
            obtain ⟨k, hkm, hnone⟩ := hmiss
            simp [bitbucket_required] at hkm
            rcases hkm with rfl | rfl | rfl | rfl
            · simp [h1] at hnone
            · simp [h2] at hnone
            · simp [h3] at hnone
            · simp [h4] at hnone
  · cases h1 : jlookup args "workspace" with
    | none =>
      exact ⟨"workspace", by simp [bitbucket_required], h1,
        by simp only [bitbucket_tool_call, arg_req, String.reduceEq, reduceIte, h1, except_error_bind]⟩
    | some v1 =>
      cases h2 : jlookup args "repo_slug" with
      | none =>
        exact ⟨"repo_slug", by simp [bitbucket_required], h2,
          by simp only [bitbucket_tool_call, arg_req, String.reduceEq, reduceIte, h1, h2, except_error_bind, except_ok_bind]⟩
      | some v2 =>
        cases h3 : jlookup args "branch_name" with
        | none =>
          exact ⟨"branch_name", by simp [bitbucket_required], h3,
            by simp only [bitbucket_tool_call, arg_req, String.reduceEq, reduceIte, h1, h2, h3, except_error_bind, except_ok_bind]⟩
        | some v3 =>
          obtain ⟨k, hkm, hnone⟩ := hmiss
          simp [bitbucket_required] at hkm
          rcases hkm with rfl | rfl | rfl
          · simp [h1] at hnone
          · simp [h2] at hnone
          · simp [h3] at hnone
  · cases h1 : jlookup args "workspace" with
    | none =>
      exact ⟨"workspace", by simp [bitbucket_required], h1,
        by simp only [bitbucket_tool_call, arg_req, String.reduceEq, reduceIte, h1, except_error_bind]⟩
    | some v1 =>
      cases h2 : jlookup args "repo_slug" with
      | none =>
        exact ⟨"repo_slug", by simp [bitbucket_required], h2,
          by simp only [bitbucket_tool_call, arg_req, String.reduceEq, reduceIte, h1, h2, except_error_bind, except_ok_bind]⟩
      | some v2 =>
        obtain ⟨k, hkm, hnone⟩ := hmiss
        simp [bitbucket_required] at hkm
        rcases hkm with rfl | rfl
        · simp [h1] at hnone
        · simp [h2] at hnone
  · cases h1 : jlookup args "workspace" with
    | none =>
      exact ⟨"workspace", by simp [bitbucket_required], h1,
        by simp only [bitbucket_tool_call, arg_req, String.reduceEq, reduceIte, h1, except_error_bind]⟩
    | some v1 =>
      cases h2 : jlookup args "repo_slug" with
      | none =>
        exact ⟨"repo_slug", by simp [bitbucket_required], h2,
          by simp only [bitbucket_tool_call, arg_req, String.reduceEq, reduceIte, h1, h2, except_error_bind, except_ok_bind]⟩
      | some v2 =>
        cases h3 : jlookup args "commit_hash" with
        | none =>
          exact ⟨"commit_hash", by simp [bitbucket_required], h3,
            by simp only [bitbucket_tool_call, arg_req, String.reduceEq, reduceIte, h1, h2, h3, except_error_bind, except_ok_bind]⟩
        | some v3 =>
          obtain ⟨k, hkm, hnone⟩ := hmiss
          simp [bitbucket_required] at hkm
          rcases hkm with rfl | rfl | rfl
          · simp [h1] at hnone
          · simp [h2] at hnone
          · simp [h3] at hnone
  · cases h1 : jlookup args "workspace" with
    | none =>
      exact ⟨"workspace", by simp [bitbucket_required], h1,
        by simp only [bitbucket_tool_call, arg_req, String.reduceEq, reduceIte, h1, except_error_bind]⟩
    | some v1 =>
      cases h2 : jlookup args "repo_slug" with
      | none =>
        exact ⟨"repo_slug", by simp [bitbucket_required], h2,
          by simp only [bitbucket_tool_call, arg_req, String.reduceEq, reduceIte, h1, h2, except_error_bind, except_ok_bind]⟩
      | some v2 =>
        cases h3 : jlookup args "commit_hash" with
        | none =>
          exact ⟨"commit_hash", by simp [bitbucket_required], h3,
            by simp only [bitbucket_tool_call, arg_req, String.reduceEq, reduceIte, h1, h2, h3, except_error_bind, except_ok_bind]⟩
        | some v3 =>
          obtain ⟨k, hkm, hnone⟩ := hmiss
          simp [bitbucket_required] at hkm
          rcases hkm with rfl | rfl | rfl
          · simp [h1] at hnone
          · simp [h2] at hnone
          · simp [h3] at hnone
  · cases h1 : jlookup args "workspace" with
    | none =>
      exact ⟨"workspace", by simp [bitbucket_required], h1,
        by simp only [bitbucket_tool_call, arg_req, String.reduceEq, reduceIte, h1, except_error_bind]⟩
    | some v1 =>
      cases h2 : jlookup args "repo_slug" with
      | none =>
        exact ⟨"repo_slug", by simp [bitbucket_required], h2,
          by simp only [bitbucket_tool_call, arg_req, String.reduceEq, reduceIte, h1, h2, except_error_bind, except_ok_bind]⟩
      | some v2 =>
        obtain ⟨k, hkm, hnone⟩ := hmiss
        simp [bitbucket_required] at hkm
        rcases hkm with rfl | rfl
        · simp [h1] at hnone
        · simp [h2] at hnone
  · cases h1 : jlookup args "workspace" with
    | none =>
      exact ⟨"workspace", by simp [bitbucket_required], h1,
        by simp only [bitbucket_tool_call, arg_req, String.reduceEq, reduceIte, h1, except_error_bind]⟩
    | some v1 =>
      cases h2 : jlookup args "repo_slug" with
      | none =>
        exact ⟨"repo_slug", by simp [bitbucket_required], h2,
          by simp only [bitbucket_tool_call, arg_req, String.reduceEq, reduceIte, h1, h2, except_error_bind, except_ok_bind]⟩
      | some v2 =>
        cases h3 : jlookup args "issue_id" with
        | none =>
          exact ⟨"issue_id", by simp [bitbucket_required], h3,
            by simp only [bitbucket_tool_call, arg_req, String.reduceEq, reduceIte, h1, h2, h3, except_error_bind, except_ok_bind]⟩
        | some v3 =>
          obtain ⟨k, hkm, hnone⟩ := hmiss
          simp [bitbucket_required] at hkm
          rcases hkm with rfl | rfl | rfl
          · simp [h1] at hnone
          · simp [h2] at hnone
          · simp [h3] at hnone
  · cases h1 : jlookup args "workspace" with
    | none =>
      exact ⟨"workspace", by simp [bitbucket_required], h1,
        by simp only [bitbucket_tool_call, arg_req, String.reduceEq, reduceIte, h1, except_error_bind]⟩
    | some v1 =>
      cases h2 : jlookup args "repo_slug" with
      | none =>
        exact ⟨"repo_slug", by simp [bitbucket_required], h2,
          by simp only [bitbucket_tool_call, arg_req, String.reduceEq, reduceIte, h1, h2, except_error_bind, except_ok_bind]⟩
      | some v2 =>
        cases h3 : jlookup args "title" with
        | none =>
          exact ⟨"title", by simp [bitbucket_required], h3,
            by simp only [bitbucket_tool_call, arg_req, String.reduceEq, reduceIte, h1, h2, h3, except_error_bind, except_ok_bind]⟩
        | some v3 =>
          obtain ⟨k, hkm, hnone⟩ := hmiss
          simp [bitbucket_required] at hkm
          rcases hkm with rfl | rfl | rfl
          · simp [h1] at hnone
          · simp [h2] at hnone
          · simp [h3] at hnone
  · cases h1 : jlookup args "workspace" with
    | none =>
      exact ⟨"workspace", by simp [bitbucket_required], h1,
        by simp only [bitbucket_tool_call, arg_req, String.reduceEq, reduceIte, h1, except_error_bind]⟩
    | some v1 =>
      cases h2 : jlookup args "repo_slug" with
      | none =>
        exact ⟨"repo_slug", by simp [bitbucket_required], h2,
          by simp only [bitbucket_tool_call, arg_req, String.reduceEq, reduceIte, h1, h2, except_error_bind, except_ok_bind]⟩
      | some v2 =>
        cases h3 : jlookup args "issue_id" with
        | none =>
          exact ⟨"issue_id", by simp [bitbucket_required], h3,
            by simp only [bitbucket_tool_call, arg_req, String.reduceEq, reduceIte, h1, h2, h3, except_error_bind, except_ok_bind]⟩
        | some v3 =>
          obtain ⟨k, hkm, hnone⟩ := hmiss
          simp [bitbucket_required] at hkm
          rcases hkm with rfl | rfl | rfl
          · simp [h1] at hnone
          · simp [h2] at hnone
          · simp [h3] at hnone
  · simp [bitbucket_required] at hmiss
  · cases h1 : jlookup args "workspace" with
    | none =>
      exact ⟨"workspace", by simp [bitbucket_required], h1,
        by simp only [bitbucket_tool_call, arg_req, String.reduceEq, reduceIte, h1, except_error_bind]⟩
    | some v1 =>
      obtain ⟨k, hkm, hnone⟩ := hmiss
      simp [bitbucket_required] at hkm
      subst hkm
      simp [h1] at hnone

-- ==================== C1 / C2 / C3 theorems ====================

/-- C3: dispatching any tool name outside a provider's registry returns
exactly the text `Unknown tool: {name}` as a successful (non-error) payload,
for any argument mapping and any client, and performs zero client (hence
zero HTTP) calls — for both the JIRA and the Bitbucket server. -/
theorem unknown_tool_text_no_call :
    (∀ (serialize : Json → String) (client : JiraCall → Except String Json)
        (name : String) (args : List (String × Json)),
      name ∉ jira_tool_names →
      jira_dispatch serialize client name args =
        ([⟨"text", "Unknown tool: " ++ name⟩], [])) ∧
    (∀ (serialize : Json → String) (client : BitbucketCall → Except String Json)
        (name : String) (args : List (String × Json)),
      name ∉ bitbucket_tool_names →
      bitbucket_dispatch serialize client name args =
        ([⟨"text", "Unknown tool: " ++ name⟩], [])) := by
  constructor
  · intro serialize client name args h
    simp only [jira_tool_names, List.mem_cons, List.not_mem_nil, or_false, not_or] at h
    obtain ⟨h1, h2, h3, h4, h5, h6, h7, h8, h9, h10, h11, h12, h13, h14, h15, h16,
      h17, h18, h19, h20, h21⟩ := h
    simp [jira_dispatch, call_tool_boundary, jira_tool_call, h1, h2, h3, h4, h5, h6,
      h7, h8, h9, h10, h11, h12, h13, h14, h15, h16, h17, h18, h19, h20, h21]
  · intro serialize client name args h
    simp only [bitbucket_tool_names, List.mem_cons, List.not_mem_nil, or_false,
      not_or] at h
    obtain ⟨h1, h2, h3, h4, h5, h6, h7, h8, h9, h10, h11, h12, h13, h14, h15, h16,
      h17, h18, h19, h20, h21, h22, h23, h24, h25, h26, h27⟩ := h
    simp [bitbucket_dispatch, call_tool_boundary, bitbucket_tool_call, h1, h2, h3,
      h4, h5, h6, h7, h8, h9, h10, h11, h12, h13, h14, h15, h16, h17, h18, h19,
      h20, h21, h22, h23, h24, h25, h26, h27]

/-- Witness for C3: a name in neither registry is answered with the literal
fallback text and no client call, on both servers. -/
theorem unknown_tool_text_no_call_witness :
    jira_dispatch (fun _ => "") (fun _ => .error "boom") "frobnicate" [] =
      ([⟨"text", "Unknown tool: frobnicate"⟩], []) ∧
    bitbucket_dispatch (fun _ => "") (fun _ => .error "boom") "frobnicate" [] =
      ([⟨"text", "Unknown tool: frobnicate"⟩], []) :=
  ⟨unknown_tool_text_no_call.1 (fun _ => "") (fun _ => .error "boom") "frobnicate" []
      (by decide),
   unknown_tool_text_no_call.2 (fun _ => "") (fun _ => .error "boom") "frobnicate" []
      (by decide)⟩

/-- C1: whenever a dispatch reaches a client call and that call raises
(network failure, non-2xx status, domain error — any message `e`), the
exception is caught at the dispatch boundary and rendered as the single
successful text payload `Error: {e}`; the dispatcher's result is an
ordinary response, never a propagated exception — for both servers. -/
theorem client_error_normalized :
    (∀ (serialize : Json → String) (client : JiraCall → Except String Json)
        (name : String) (args : List (String × Json)) (c : JiraCall) (e : String),
      jira_tool_call name args = .ok (some c) → client c = .error e →
      jira_dispatch serialize client name args = ([⟨"text", "Error: " ++ e⟩], [c])) ∧
    (∀ (serialize : Json → String) (client : BitbucketCall → Except String Json)
        (name : String) (args : List (String × Json)) (c : BitbucketCall) (e : String),
      bitbucket_tool_call name args = .ok (some c) → client c = .error e →
      bitbucket_dispatch serialize client name args =
        ([⟨"text", "Error: " ++ e⟩], [c])) := by
  constructor
  · intro serialize client name args c e h1 h2
    simp [jira_dispatch, call_tool_boundary, h1, h2]
  · intro serialize client name args c e h1 h2
    simp [bitbucket_dispatch, call_tool_boundary, h1, h2]

/-- Witness for C1: a simulated remote 404 on Bitbucket `get_pull_request`
and on JIRA `get_issue` each yield a successful payload beginning with
`Error: ` and containing the status detail. -/
theorem client_error_normalized_witness :
    bitbucket_dispatch (fun _ => "")
        (fun _ => .error "Client error '404 Not Found' for url") "get_pull_request"
        [("workspace", .str "ws"), ("repo_slug", .str "repo"), ("pr_id", .num 7)] =
      ([⟨"text", "Error: Client error '404 Not Found' for url"⟩],
       [.get_pull_request (.str "ws") (.str "repo") (.num 7)]) ∧
    jira_dispatch (fun _ => "") (fun _ => .error "404 Not Found") "get_issue"
        [("issue_key", .str "PROJ-1")] =
      ([⟨"text", "Error: 404 Not Found"⟩], [.get_issue (.str "PROJ-1")]) :=
  ⟨client_error_normalized.2 (fun _ => "")
      (fun _ => .error "Client error '404 Not Found' for url") "get_pull_request"
      [("workspace", .str "ws"), ("repo_slug", .str "repo"), ("pr_id", .num 7)]
      (.get_pull_request (.str "ws") (.str "repo") (.num 7))
      "Client error '404 Not Found' for url" rfl rfl,
   client_error_normalized.1 (fun _ => "") (fun _ => .error "404 Not Found")
      "get_issue" [("issue_key", .str "PROJ-1")] (.get_issue (.str "PROJ-1"))
      "404 Not Found" rfl rfl⟩

/-- Counterexample to C2 as stated: dispatching `get_project` with an empty
argument mapping — a registered tool missing its schema-required
`project_key` — produces the *successful* text payload `Error: 'project_key'`
(the `str()` of the `KeyError`) and performs no client call; the exception
is caught by the dispatch boundary's `except Exception`, not propagated. -/
theorem missing_required_argument_cex :
    jira_dispatch (fun _ => "") (fun _ => .ok .null) "get_project" [] =
      ([⟨"text", "Error: 'project_key'"⟩], []) := rfl

/-- C2 (amended): dispatching a registered tool whose argument mapping lacks
a schema-required argument performs no client (hence no HTTP) call, but the
`KeyError` from the direct keyed extraction of the first missing required
argument *is* caught by the dispatch boundary's catch-all handler and
returned as the successful text payload `Error: '{key}'` — it does not
propagate to the caller — for both servers. -/
theorem missing_required_argument_caught :
    (∀ (serialize : Json → String) (client : JiraCall → Except String Json)
        (name : String) (args : List (String × Json)),
      name ∈ jira_tool_names →
      (∃ k ∈ jira_required name, jlookup args k = none) →
      ∃ k, k ∈ jira_required name ∧ jlookup args k = none ∧
        jira_dispatch serialize client name args =
          ([⟨"text", "Error: " ++ ("'" ++ k ++ "'")⟩], [])) ∧
    (∀ (serialize : Json → String) (client : BitbucketCall → Except String Json)
        (name : String) (args : List (String × Json)),
      name ∈ bitbucket_tool_names →
      (∃ k ∈ bitbucket_required name, jlookup args k = none) →
      ∃ k, k ∈ bitbucket_required name ∧ jlookup args k = none ∧
        bitbucket_dispatch serialize client name args =
          ([⟨"text", "Error: " ++ ("'" ++ k ++ "'")⟩], [])) := by
  constructor
  · intro serialize client name args h hmiss
    obtain ⟨k, hk1, hk2, hk3⟩ := jira_missing_required_key_error name args h hmiss
    exact ⟨k, hk1, hk2, by simp [jira_dispatch, call_tool_boundary, hk3, Exn.message]⟩
  · intro serialize client name args h hmiss
    obtain ⟨k, hk1, hk2, hk3⟩ := bitbucket_missing_required_key_error name args h hmiss
    exact ⟨k, hk1, hk2,
      by simp [bitbucket_dispatch, call_tool_boundary, hk3, Exn.message]⟩

/-- Witness for amended C2: `create_issue` (JIRA) called with only
`project_key` and `get_pull_request` (Bitbucket) called with only
`workspace` each answer with a caught `Error: '{key}'` payload and no
client call. -/
theorem missing_required_argument_caught_witness :
    (∃ k, k ∈ jira_required "create_issue" ∧
      jlookup [("project_key", Json.str "P")] k = none ∧
      jira_dispatch (fun _ => "") (fun _ => .ok .null) "create_issue"
          [("project_key", Json.str "P")] =
        ([⟨"text", "Error: " ++ ("'" ++ k ++ "'")⟩], [])) ∧
    (∃ k, k ∈ bitbucket_required "get_pull_request" ∧
      jlookup [("workspace", Json.str "ws")] k = none ∧
      bitbucket_dispatch (fun _ => "") (fun _ => .ok .null) "get_pull_request"
          [("workspace", Json.str "ws")] =
        ([⟨"text", "Error: " ++ ("'" ++ k ++ "'")⟩], [])) :=
  ⟨missing_required_argument_caught.1 (fun _ => "") (fun _ => .ok .null)
      "create_issue" [("project_key", Json.str "P")] (by decide)
      ⟨"summary", by decide, rfl⟩,
   missing_required_argument_caught.2 (fun _ => "") (fun _ => .ok .null)
      "get_pull_request" [("workspace", Json.str "ws")] (by decide)
      ⟨"repo_slug", by decide, rfl⟩⟩
